import Mathlib

/-!
Verification of the Tier 1 nonprofit vetting core (scoring rules, red-flag
detection, threshold configuration and narrative summary generation).

The development shallowly embeds the TypeScript sources:
  src/domain/nonprofit/scoring.ts   (checks, score, recommendation, red flags)
  src/domain/nonprofit/messages.ts  (summary generation)
  src/core/config.ts                (threshold defaults and validation)
  sector override module            (per-sector threshold overrides)

Modelling conventions:
  - JS numbers are modelled as rationals; every value occurring in the
    domain is a finite double, so Number.isFinite tests on values computed
    without division by zero are modelled as trivially true where noted.
  - NaN is not representable; fields whose JS value can be null or
    undefined are Option-valued, and the one threshold pair that is absent
    from the shipped base configuration is Option-valued as well, with the
    JS comparison x > undefined (always false) modelled explicitly.
  - Date.now() is passed in as an explicit parameter now (milliseconds
    since the epoch); new Date(y, m, 1).getTime() is modelled for a UTC
    environment (no local-time offset) via the standard civil-calendar day
    count, including the two-digit-year rule of the Date constructor.
  - The JS Infinity produced for an unparseable tax period is modelled by
    Option: yearsFromTaxPeriod returns none for it, and each use site
    reproduces the comparison results Infinity would give.
-/

namespace NonprofitVetting

/-- Models JS Math.round: round half toward positive infinity. -/
def jsRound (q : ℚ) : ℤ := ⌊q + 1 / 2⌋

/-- Models JS ToIntegerOrInfinity on a finite value: truncation toward zero. -/
def jsTrunc (q : ℚ) : ℤ := Int.tdiv q.num (q.den : ℤ)

/-- Decimal digits of a natural number, as a string. -/
def natDigits (n : ℕ) : String := Nat.repr n

/-- Models JS Number.prototype.toFixed with d digits on a finite value:
the numeral closest to the value, ties toward the larger numeral, computed
on the absolute value with the sign re-attached. -/
def toFixed (d : ℕ) (q : ℚ) : String :=
  let sign := if q < 0 then "-" else ""
  let n : ℤ := ⌊|q| * (10 : ℚ) ^ d + 1 / 2⌋
  let s := natDigits n.toNat
  if d = 0 then sign ++ s
  else
    let s := if s.length ≤ d then String.mk (List.replicate (d + 1 - s.length) '0') ++ s else s
    sign ++ (s.take (s.length - d)) ++ "." ++ (s.drop (s.length - d))

/-- Embeds formatNumber of scoring.ts: millions with one decimal, thousands
with none, otherwise toFixed(0). -/
def formatNumber (num : ℚ) : String :=
  let a := |num|
  let sign := if num < 0 then "-" else ""
  if a ≥ 1000000 then sign ++ toFixed 1 (a / 1000000) ++ "M"
  else if a ≥ 1000 then sign ++ toFixed 0 (a / 1000) ++ "K"
  else toFixed 0 num

/-- Embeds formatPercent of scoring.ts. -/
def formatPercent (ratio : ℚ) : String := toFixed 1 (ratio * 100) ++ "%"

/-- Smallest number of decimal digits (up to 40) that renders the rational
exactly; JS doubles always have a terminating decimal expansion well inside
that bound. -/
def decimalDigitCount (q : ℚ) : Option ℕ :=
  (List.range 40).find? (fun k => (q * (10 : ℚ) ^ k).den = 1)

/-- Models JS String(x) on a finite number: integers print with no point,
other values with their exact terminating decimal expansion. -/
def jsStr (q : ℚ) : String :=
  if q.den = 1 then toString q.num
  else
    match decimalDigitCount q with
    | some k => toFixed k q
    | none => toFixed 20 q

/-- Boolean list-prefix test over characters. -/
def isPrefixCL : List Char → List Char → Bool
  | [], _ => true
  | _ :: _, [] => false
  | a :: as, b :: bs => a == b && isPrefixCL as bs

/-- Boolean list-infix test over characters. -/
def isInfixCL (needle : List Char) : List Char → Bool
  | [] => isPrefixCL needle []
  | c :: cs => isPrefixCL needle (c :: cs) || isInfixCL needle cs

/-- Models JS String.prototype.includes. -/
def jsIncludes (s sub : String) : Bool := isInfixCL sub.data s.data

/-- Replaces the first occurrence of a pattern, over character lists. -/
def replaceOnceCL (pat repl : List Char) : List Char → List Char
  | [] => if pat = [] then repl else []
  | c :: cs =>
    if isPrefixCL pat (c :: cs) then repl ++ List.drop pat.length (c :: cs)
    else c :: replaceOnceCL pat repl cs

/-- Models JS String.prototype.replace with a string pattern: only the first
occurrence is replaced (dollar-escape sequences in the replacement are not
modelled; no replacement used by the sources contains them). -/
def jsReplaceOnce (s pat repl : String) : String :=
  String.mk (replaceOnceCL pat.data repl.data s.data)

/-- Tri-state outcome of one check (type CheckResult of types.ts). -/
inductive CheckResult
  | PASS
  | REVIEW
  | FAIL
deriving DecidableEq, Repr

/-- Severity of a red flag (type RedFlagSeverity of types.ts). -/
inductive RedFlagSeverity
  | HIGH
  | MEDIUM
  | LOW
deriving DecidableEq, Repr

/-- Renders a severity the way the JS string union prints. -/
def severityStr : RedFlagSeverity → String
  | RedFlagSeverity.HIGH => "HIGH"
  | RedFlagSeverity.MEDIUM => "MEDIUM"
  | RedFlagSeverity.LOW => "LOW"

/-- Final three-way verdict. -/
inductive Recommendation
  | PASS
  | REVIEW
  | REJECT
deriving DecidableEq, Repr

/-- One red flag (interface RedFlag of types.ts); the type tag is kept as a
string so that summary generation can be stated over arbitrary tags. -/
structure RedFlag where
  severity : RedFlagSeverity
  type : String
  detail : String
deriving DecidableEq, Repr

/-- One check outcome (interface Tier1Check of types.ts). -/
structure Tier1Check where
  name : String
  passed : Bool
  result : CheckResult
  detail : String
  weight : ℚ
deriving DecidableEq, Repr

/-- Summary of the most recent filing (interface Latest990Summary).
total_revenue, overhead_ratio and officer_compensation_ratio can be null in
the data and are Option-valued. -/
structure Latest990Summary where
  tax_period : String
  tax_year : ℤ
  form_type : String
  total_revenue : Option ℚ
  total_expenses : ℚ
  total_assets : ℚ
  total_liabilities : ℚ
  overhead_ratio : Option ℚ
  officer_compensation_ratio : Option ℚ
deriving DecidableEq, Repr

/-- Normalized organization profile (interface NonprofitProfile).
years_operating is null when no ruling date is available; a missing ruling
date is the empty string (the JS field is a string tested for truthiness). -/
structure NonprofitProfile where
  ein : String
  name : String
  ruling_date : String
  years_operating : Option ℚ
  subsection : String
  ntee_code : String
  latest_990 : Option Latest990Summary
  filing_count : ℕ
deriving DecidableEq, Repr

/-- One raw historical filing (interface ProPublica990Filing); only the two
fields the scoring core reads are carried (the remaining raw breakdown
fields are never consulted by the embedded functions). totrevenue can be
null in the data. -/
structure ProPublica990Filing where
  tax_prd : ℤ
  totrevenue : Option ℚ
deriving DecidableEq, Repr

/-- Threshold configuration (interface VettingThresholds). The two officer
compensation thresholds are absent from the base configuration produced by
loadThresholds and only introduced by the health-sector override, so they
are Option-valued: none models the JS value undefined. -/
structure VettingThresholds where
  weight501c3Status : ℚ
  weightYearsOperating : ℚ
  weightRevenueRange : ℚ
  weightOverheadRatio : ℚ
  weightRecent990 : ℚ
  yearsPassMin : ℚ
  yearsReviewMin : ℚ
  revenueFailMin : ℚ
  revenuePassMin : ℚ
  revenuePassMax : ℚ
  revenueReviewMax : ℚ
  expenseRatioPassMin : ℚ
  expenseRatioPassMax : ℚ
  expenseRatioHighReview : ℚ
  expenseRatioLowReview : ℚ
  filing990PassMax : ℚ
  filing990ReviewMax : ℚ
  scorePassMin : ℚ
  scoreReviewMin : ℚ
  redFlagStale990Years : ℚ
  redFlagHighExpenseRatio : ℚ
  redFlagLowExpenseRatio : ℚ
  redFlagVeryLowRevenue : ℚ
  redFlagRevenueDeclinePercent : ℚ
  redFlagTooNewYears : ℚ
  redFlagHighCompensation : Option ℚ
  redFlagModerateCompensation : Option ℚ

/-- Models the JS comparison x > t where t may be undefined: a comparison
against undefined is always false. -/
def jsGtOpt (x : ℚ) : Option ℚ → Bool
  | some y => decide (y < x)
  | none => false

/-- Narrative summary (interface Tier1Summary). -/
structure Tier1Summary where
  headline : String
  justification : String
  key_factors : List String
  next_steps : List String

/-- Full evaluation result (interface Tier1Result). -/
structure Tier1Result where
  ein : String
  name : String
  passed : Bool
  score : ℚ
  summary : Tier1Summary
  checks : List Tier1Check
  recommendation : Recommendation
  review_reasons : List String
  red_flags : List RedFlag

/-- Default thresholds: the value loadThresholds of config.ts returns when
no environment variable overrides a field (every default of the source). -/
def defaultThresholds : VettingThresholds where
  weight501c3Status := 30
  weightYearsOperating := 15
  weightRevenueRange := 20
  weightOverheadRatio := 20
  weightRecent990 := 15
  yearsPassMin := 3
  yearsReviewMin := 1
  revenueFailMin := 50000
  revenuePassMin := 100000
  revenuePassMax := 10000000
  revenueReviewMax := 50000000
  expenseRatioPassMin := 0.70
  expenseRatioPassMax := 1.0
  expenseRatioHighReview := 1.2
  expenseRatioLowReview := 0.5
  filing990PassMax := 2
  filing990ReviewMax := 3
  scorePassMin := 80
  scoreReviewMin := 50
  redFlagStale990Years := 4
  redFlagHighExpenseRatio := 1.2
  redFlagLowExpenseRatio := 0.5
  redFlagVeryLowRevenue := 25000
  redFlagRevenueDeclinePercent := 0.5
  redFlagTooNewYears := 1
  redFlagHighCompensation := none
  redFlagModerateCompensation := none

/-- ASCII whitespace set used when modelling the trimming Number() performs. -/
def isWSCh (c : Char) : Bool :=
  c = ' ' || c = '\t' || c = '\n' || c = '\r' || c.toNat = 11 || c.toNat = 12

/-- Trims whitespace from both ends of a character list. -/
def trimWS (l : List Char) : List Char :=
  ((l.dropWhile isWSCh).reverse.dropWhile isWSCh).reverse

/-- Models JS String.prototype.split with separator "-". -/
def splitOnDash : List Char → List (List Char)
  | [] => [[]]
  | c :: rest =>
    if c = '-' then [] :: splitOnDash rest
    else
      match splitOnDash rest with
      | [] => [[c]]
      | h :: tl => (c :: h) :: tl

/-- Value of a decimal digit string (most significant digit first). -/
def digitsToNat (l : List Char) : ℕ :=
  l.foldl (fun a c => 10 * a + (c.toNat - 48)) 0

/-- Digits required to be the entire remaining input, as for an exponent. -/
def parseAllDigits (l : List Char) : Option ℕ :=
  if l ≠ [] ∧ l.all Char.isDigit then some (digitsToNat l) else none

/-- Exponent suffix of a JS decimal literal; some 0 when absent, none when
the remaining input is not a well-formed exponent. -/
def parseExpPart : List Char → Option ℤ
  | [] => some 0
  | c :: rest =>
    if c = 'e' ∨ c = 'E' then
      match rest with
      | '+' :: ds => (parseAllDigits ds).map (fun n => (n : ℤ))
      | '-' :: ds => (parseAllDigits ds).map (fun n => -(n : ℤ))
      | ds => (parseAllDigits ds).map (fun n => (n : ℤ))
    else none

/-- Unsigned JS decimal literal: digits, optional point and fraction digits,
optional exponent; none models NaN. -/
def parseDecimal (l : List Char) : Option ℚ :=
  let ip := l.takeWhile Char.isDigit
  let r1 := l.dropWhile Char.isDigit
  match r1 with
  | '.' :: r2 =>
    let fp := r2.takeWhile Char.isDigit
    let r3 := r2.dropWhile Char.isDigit
    if ip = [] ∧ fp = [] then none
    else
      (parseExpPart r3).map (fun e =>
        ((digitsToNat (ip ++ fp) : ℚ) / (10 : ℚ) ^ fp.length) * (10 : ℚ) ^ e)
  | _ =>
    if ip = [] then none
    else (parseExpPart r1).map (fun e => (digitsToNat ip : ℚ) * (10 : ℚ) ^ e)

/-- Models JS Number() on a string, restricted to finite results: none is
returned for every input whose Number value is NaN or infinite, so a
Number.isFinite guard in the source corresponds to matching some here.
Non-decimal forms (hex, octal, binary) are not modelled; no tax-period
component uses them. -/
def jsFiniteNumberCL (l : List Char) : Option ℚ :=
  match trimWS l with
  | [] => some 0
  | '+' :: rest => parseDecimal rest
  | '-' :: rest => (parseDecimal rest).map (fun q => -q)
  | l2 => parseDecimal l2

/-- Models JS Number() on a string; see jsFiniteNumberCL. -/
def jsFiniteNumber (s : String) : Option ℚ := jsFiniteNumberCL s.data

/-- Days from the epoch 1970-01-01 of the civil date y-m-d (month 1..12),
by the standard floor-division civil-calendar formula. -/
def daysFromCivil (y m d : ℤ) : ℤ :=
  let y2 := if m ≤ 2 then y - 1 else y
  let mp := if m ≤ 2 then m + 9 else m - 3
  365 * y2 + Int.fdiv y2 4 - Int.fdiv y2 100 + Int.fdiv y2 400
    + Int.fdiv (153 * mp + 2) 5 + d - 1 - 719468

/-- Models new Date(year, monthIndex, day).getTime() of JS in a UTC
environment: arguments truncated to integers, years 0..99 mapped to
1900..1999, out-of-range month indexes rolled into the year (TimeClip and
local-time offsets are not modelled). -/
def jsDateMs (year month day : ℚ) : ℚ :=
  let yi := jsTrunc year
  let mi := jsTrunc month
  let di := jsTrunc day
  let yr := if 0 ≤ yi ∧ yi ≤ 99 then 1900 + yi else yi
  let ym := yr + Int.fdiv mi 12
  let mn := Int.emod mi 12
  (((daysFromCivil ym (mn + 1) 1 + (di - 1)) * 86400000 : ℤ) : ℚ)

/-- Milliseconds in the 365.25-day year used by the source. -/
def msPerYear : ℚ := 365.25 * 24 * 60 * 60 * 1000

/-- Embeds yearsFromTaxPeriod of scoring.ts: split the period on "-", read
year and month with Number(); when either is not finite the source returns
Infinity, modelled here as none. Otherwise the age in 365.25-day years of
new Date(year, month - 1, 1), relative to the explicit now. -/
def yearsFromTaxPeriod (now : ℚ) (taxPeriod : String) : Option ℚ :=
  let parts := splitOnDash taxPeriod.data
  match (parts.get? 0).bind jsFiniteNumberCL, (parts.get? 1).bind jsFiniteNumberCL with
  | some year, some month => some ((now - jsDateMs year (month - 1) 1) / msPerYear)
  | _, _ => none

/-- Embeds check501c3Status of scoring.ts. -/
def check501c3Status (profile : NonprofitProfile) (t : VettingThresholds) : Tier1Check :=
  let passed := profile.subsection == "03"
  { name := "501c3_status"
    passed := passed
    result := if passed then CheckResult.PASS else CheckResult.FAIL
    detail :=
      if passed then "501(c)(3) public charity (subsection " ++ profile.subsection ++ ")"
      else "Not a 501(c)(3) - subsection "
        ++ (if profile.subsection = "" then "unknown" else profile.subsection)
    weight := t.weight501c3Status }

/-- Embeds checkYearsOperating of scoring.ts; the JS test
years === null || years < 0 is split across the match and the first if. -/
def checkYearsOperating (profile : NonprofitProfile) (t : VettingThresholds) : Tier1Check :=
  let rd : CheckResult × String :=
    match profile.years_operating with
    | none => (CheckResult.FAIL, "No ruling date available")
    | some years =>
      if years < 0 then (CheckResult.FAIL, "No ruling date available")
      else if years < t.yearsReviewMin then
        (CheckResult.FAIL,
          "Less than " ++ jsStr t.yearsReviewMin ++ " year"
            ++ (if t.yearsReviewMin = 1 then "" else "s") ++ " operating ("
            ++ jsStr years ++ " year" ++ (if years = 1 then "" else "s")
            ++ " since " ++ profile.ruling_date ++ ")")
      else if years < t.yearsPassMin then
        (CheckResult.REVIEW,
          jsStr years ++ " years operating (since " ++ profile.ruling_date
            ++ ") - newer organization")
      else
        (CheckResult.PASS,
          jsStr years ++ " years operating (since " ++ profile.ruling_date ++ ")")
  { name := "years_operating"
    passed := rd.1 == CheckResult.PASS
    result := rd.1
    detail := rd.2
    weight := t.weightYearsOperating }

/-- Embeds checkRevenueRange of scoring.ts. -/
def checkRevenueRange (profile : NonprofitProfile) (t : VettingThresholds) : Tier1Check :=
  let revenue := profile.latest_990.bind (fun s => s.total_revenue)
  let rd : CheckResult × String :=
    match revenue with
    | none => (CheckResult.FAIL, "No revenue data available")
    | some r =>
      if r < 0 then
        (CheckResult.FAIL,
          "Negative revenue ($" ++ formatNumber r ++ ") - data anomaly requires investigation")
      else if r = 0 then (CheckResult.FAIL, "Zero revenue reported")
      else if r < t.revenueFailMin then
        (CheckResult.FAIL, "$" ++ formatNumber r ++ " revenue - too small to assess reliably")
      else if r < t.revenuePassMin then
        (CheckResult.REVIEW, "$" ++ formatNumber r ++ " revenue - small but viable")
      else if r ≤ t.revenuePassMax then
        (CheckResult.PASS, "$" ++ formatNumber r ++ " revenue - appropriate size for impact")
      else if r ≤ t.revenueReviewMax then
        (CheckResult.REVIEW,
          "$" ++ formatNumber r ++ " revenue - larger organization, may have different needs")
      else
        (CheckResult.FAIL,
          "$" ++ formatNumber r ++ " revenue - outside target scope (>$"
            ++ formatNumber t.revenueReviewMax ++ ")")
  { name := "revenue_range"
    passed := rd.1 == CheckResult.PASS
    result := rd.1
    detail := rd.2
    weight := t.weightRevenueRange }

/-- Embeds checkOverheadRatio of scoring.ts. The none branch also models the
Number.isNaN(ratio) case of the source, which takes the same branch. -/
def checkOverheadRatio (profile : NonprofitProfile) (t : VettingThresholds) : Tier1Check :=
  let ratio := profile.latest_990.bind (fun s => s.overhead_ratio)
  let rd : CheckResult × String :=
    match ratio with
    | none => (CheckResult.REVIEW, "Cannot calculate expense efficiency - missing data")
    | some r =>
      if t.expenseRatioPassMin ≤ r ∧ r ≤ t.expenseRatioPassMax then
        (CheckResult.PASS,
          formatPercent r ++ " expense-to-revenue ratio - healthy fund deployment")
      else if t.expenseRatioPassMax < r ∧ r ≤ t.expenseRatioHighReview then
        (CheckResult.REVIEW,
          formatPercent r ++ " expense-to-revenue ratio - spending exceeds revenue (check reserves)")
      else if t.expenseRatioHighReview < r then
        (CheckResult.FAIL,
          formatPercent r ++ " expense-to-revenue ratio - potentially unsustainable")
      else if t.expenseRatioLowReview ≤ r then
        (CheckResult.REVIEW,
          formatPercent r ++ " expense-to-revenue ratio - lower than typical (accumulating reserves?)")
      else
        (CheckResult.FAIL,
          formatPercent r ++ " expense-to-revenue ratio - very low fund deployment")
  { name := "overhead_ratio"
    passed := rd.1 == CheckResult.PASS
    result := rd.1
    detail := rd.2
    weight := t.weightOverheadRatio }

/-- Embeds checkRecent990 of scoring.ts. The none branch of the inner match
models yearsAgo = Infinity: both recency comparisons are false and
toFixed(1) renders "Infinity" in the detail. -/
def checkRecent990 (profile : NonprofitProfile) (t : VettingThresholds) (now : ℚ) : Tier1Check :=
  let rd : CheckResult × String :=
    match profile.latest_990 with
    | none => (CheckResult.FAIL, "No 990 filings on record")
    | some s =>
      if s.tax_period = "" ∨ profile.filing_count = 0 then
        (CheckResult.FAIL, "No 990 filings on record")
      else
        match yearsFromTaxPeriod now s.tax_period with
        | some yearsAgo =>
          if yearsAgo ≤ t.filing990PassMax then
            (CheckResult.PASS,
              "Most recent 990 from " ++ s.tax_period ++ " (" ++ s.form_type ++ ")")
          else if yearsAgo ≤ t.filing990ReviewMax then
            (CheckResult.REVIEW,
              "Most recent 990 from " ++ s.tax_period ++ " - data is "
                ++ toFixed 1 yearsAgo ++ " years old")
          else
            (CheckResult.FAIL,
              "Most recent 990 from " ++ s.tax_period ++ " - data is "
                ++ toFixed 1 yearsAgo ++ " years old (too stale)")
        | none =>
          (CheckResult.FAIL,
            "Most recent 990 from " ++ s.tax_period
              ++ " - data is Infinity years old (too stale)")
  { name := "recent_990"
    passed := rd.1 == CheckResult.PASS
    result := rd.1
    detail := rd.2
    weight := t.weightRecent990 }

/-- Embeds calculateScore of scoring.ts: PASS adds the full weight, REVIEW
half, FAIL nothing; the accumulated sum is passed to Math.round. -/
def calculateScore (checks : List Tier1Check) : ℚ :=
  ((jsRound (checks.foldl
    (fun score check =>
      match check.result with
      | CheckResult.PASS => score + check.weight
      | CheckResult.REVIEW => score + check.weight * 0.5
      | CheckResult.FAIL => score)
    0) : ℤ) : ℚ)

/-- Embeds getRecommendation of scoring.ts. -/
def getRecommendation (score : ℚ) (redFlags : List RedFlag) (t : VettingThresholds) :
    Recommendation :=
  if redFlags.any (fun flag => flag.severity == RedFlagSeverity.HIGH) then
    Recommendation.REJECT
  else if score ≥ t.scorePassMin then Recommendation.PASS
  else if score ≥ t.scoreReviewMin then Recommendation.REVIEW
  else Recommendation.REJECT

/-- The list of the five check outcomes exactly as runTier1Checks builds it. -/
def tier1Checks (profile : NonprofitProfile) (t : VettingThresholds) (now : ℚ) :
    List Tier1Check :=
  [check501c3Status profile t,
   checkYearsOperating profile t,
   checkRevenueRange profile t,
   checkOverheadRatio profile t,
   checkRecent990 profile t now]

/-- Stable insertion into a list sorted descending by tax_prd: the new
element goes in front of the first element whose period is not larger. -/
def insertByTaxPrdDesc (x : ProPublica990Filing) :
    List ProPublica990Filing → List ProPublica990Filing
  | [] => [x]
  | y :: ys =>
    if y.tax_prd ≤ x.tax_prd then x :: y :: ys
    else y :: insertByTaxPrdDesc x ys

/-- Models the stable JS Array.prototype.sort with the comparator
(a, b) => b.tax_prd - a.tax_prd of the source: descending by period code,
ties kept in input order. -/
def sortByTaxPrdDesc : List ProPublica990Filing → List ProPublica990Filing
  | [] => []
  | x :: xs => insertByTaxPrdDesc x (sortByTaxPrdDesc xs)

/-- First push site of detectRedFlags: no 990 on file. -/
def rfNo990 (profile : NonprofitProfile) : List RedFlag :=
  if profile.filing_count = 0 ∨ profile.latest_990 = none then
    [{ severity := RedFlagSeverity.HIGH
       type := "no_990_on_file"
       detail := "No 990 filings on record with ProPublica" }]
  else []

/-- Second push site of detectRedFlags: not a 501(c)(3). -/
def rfNot501c3 (profile : NonprofitProfile) : List RedFlag :=
  if profile.subsection ≠ "03" then
    [{ severity := RedFlagSeverity.HIGH
       type := "not_501c3"
       detail := "Organization is 501(c)("
         ++ (if profile.subsection = "" then "?" else profile.subsection)
         ++ ") - donations may not be tax-deductible" }]
  else []

/-- Third push site of detectRedFlags: no ruling date. -/
def rfNoRulingDate (profile : NonprofitProfile) : List RedFlag :=
  if profile.ruling_date = "" ∨ profile.years_operating = none then
    [{ severity := RedFlagSeverity.HIGH
       type := "no_ruling_date"
       detail := "No IRS ruling date on record" }]
  else []

/-- Fourth push site of detectRedFlags: too new. -/
def rfTooNew (profile : NonprofitProfile) (t : VettingThresholds) : List RedFlag :=
  match profile.years_operating with
  | some years =>
    if years < t.redFlagTooNewYears then
      [{ severity := RedFlagSeverity.MEDIUM
         type := "too_new"
         detail := "Organization is less than " ++ jsStr t.redFlagTooNewYears
           ++ " year" ++ (if t.redFlagTooNewYears = 1 then "" else "s") ++ " old" }]
    else []
  | none => []

/-- Stale filing push site of detectRedFlags, inside the latest_990 block.
The none branch of the inner match models yearsAgo = Infinity: the strict
comparison Infinity > threshold is true and toFixed(1) renders "Infinity",
so an unparseable period emits the flag. -/
def rfStale990 (s : Latest990Summary) (t : VettingThresholds) (now : ℚ) : List RedFlag :=
  if s.tax_period ≠ "" then
    match yearsFromTaxPeriod now s.tax_period with
    | some yearsAgo =>
      if yearsAgo > t.redFlagStale990Years then
        [{ severity := RedFlagSeverity.HIGH
           type := "stale_990"
           detail := "Most recent 990 is from " ++ s.tax_period ++ " ("
             ++ toFixed 1 yearsAgo ++ " years old)" }]
      else []
    | none =>
      [{ severity := RedFlagSeverity.HIGH
         type := "stale_990"
         detail := "Most recent 990 is from " ++ s.tax_period
           ++ " (Infinity years old)" }]
  else []

/-- Expense efficiency push sites of detectRedFlags. -/
def rfExpenseRatio (s : Latest990Summary) (t : VettingThresholds) : List RedFlag :=
  match s.overhead_ratio with
  | some ratio =>
    if ratio > t.redFlagHighExpenseRatio then
      [{ severity := RedFlagSeverity.HIGH
         type := "very_high_overhead"
         detail := "Expense-to-revenue ratio is " ++ formatPercent ratio
           ++ " - spending far exceeds income" }]
    else if ratio < t.redFlagLowExpenseRatio then
      [{ severity := RedFlagSeverity.MEDIUM
         type := "low_fund_deployment"
         detail := "Expense-to-revenue ratio is only " ++ formatPercent ratio
           ++ " - low fund deployment" }]
    else []
  | none => []

/-- Very low revenue push site of detectRedFlags; the JS guard is
revenue != null, so zero revenue is tested, not skipped. -/
def rfVeryLowRevenue (s : Latest990Summary) (t : VettingThresholds) : List RedFlag :=
  match s.total_revenue with
  | some revenue =>
    if revenue < t.redFlagVeryLowRevenue then
      [{ severity := RedFlagSeverity.MEDIUM
         type := "very_low_revenue"
         detail := "Revenue is only $" ++ formatNumber revenue
           ++ " - very small operation" }]
    else []
  | none => []

/-- Officer compensation push sites of detectRedFlags. The source guard is
compRatio != null && Number.isFinite(compRatio) && compRatio > 0; the
finiteness test is trivially true over rationals. Both comparisons against
the two compensation thresholds go through jsGtOpt because those thresholds
are undefined in the base configuration. -/
def rfOfficerComp (s : Latest990Summary) (t : VettingThresholds) : List RedFlag :=
  match s.officer_compensation_ratio with
  | some compRatio =>
    if compRatio > 0 then
      if jsGtOpt compRatio t.redFlagHighCompensation then
        [{ severity := RedFlagSeverity.HIGH
           type := "high_officer_compensation"
           detail := "Officer/director compensation is " ++ formatPercent compRatio
             ++ " of total expenses — exceeds "
             ++ (match t.redFlagHighCompensation with
                 | some hi => formatPercent hi
                 | none => "NaN%")
             ++ " threshold" }]
      else if jsGtOpt compRatio t.redFlagModerateCompensation then
        [{ severity := RedFlagSeverity.MEDIUM
           type := "high_officer_compensation"
           detail := "Officer/director compensation is " ++ formatPercent compRatio
             ++ " of total expenses — elevated" }]
      else []
    else []
  | none => []

/-- The latest_990 block of detectRedFlags, in source order. -/
def rfLatest990 (s : Latest990Summary) (t : VettingThresholds) (now : ℚ) : List RedFlag :=
  rfStale990 s t now ++ rfExpenseRatio s t ++ rfVeryLowRevenue s t ++ rfOfficerComp s t

/-- Revenue decline push site of detectRedFlags, applied once at least two
filings exist. The source also tests Number.isFinite(decline); with a
strictly positive rational previous revenue the quotient is always finite,
so that test is trivially true here. -/
def rfRevenueDecline (fs : List ProPublica990Filing) (t : VettingThresholds) : List RedFlag :=
  match sortByTaxPrdDesc fs with
  | latest :: previous :: _ =>
    match latest.totrevenue, previous.totrevenue with
    | some lr, some pr =>
      if 0 < pr ∧ 0 ≤ lr then
        if (pr - lr) / pr > t.redFlagRevenueDeclinePercent then
          [{ severity := RedFlagSeverity.MEDIUM
             type := "revenue_decline"
             detail := "Revenue declined " ++ formatPercent ((pr - lr) / pr)
               ++ " year-over-year ($" ++ formatNumber pr ++ " → $"
               ++ formatNumber lr ++ ")" }]
        else []
      else []
    | _, _ => []
  | _ => []

/-- Embeds detectRedFlags of scoring.ts: the concatenation of the push
sites above in source order. -/
def detectRedFlags (profile : NonprofitProfile)
    (filings : Option (List ProPublica990Filing)) (t : VettingThresholds) (now : ℚ) :
    List RedFlag :=
  rfNo990 profile
  ++ rfNot501c3 profile
  ++ rfNoRulingDate profile
  ++ rfTooNew profile t
  ++ (match profile.latest_990 with
    | none => []
    | some s => rfLatest990 s t now)
  ++ (match filings with
    | some fs => if 2 ≤ fs.length then rfRevenueDecline fs t else []
    | none => [])

/-- Sequential error list built by validateThresholds of config.ts, one
block per source if statement, in source order. -/
def thresholdErrors (t : VettingThresholds) : List String :=
  (if t.weight501c3Status < 0 ∨ t.weightYearsOperating < 0 ∨ t.weightRevenueRange < 0
      ∨ t.weightOverheadRatio < 0 ∨ t.weightRecent990 < 0 then
    ["All weights must be non-negative"]
  else [])
  ++ (if t.weight501c3Status + t.weightYearsOperating + t.weightRevenueRange
        + t.weightOverheadRatio + t.weightRecent990 ≠ 100 then
    ["Weights must sum to 100, got "
      ++ jsStr (t.weight501c3Status + t.weightYearsOperating + t.weightRevenueRange
        + t.weightOverheadRatio + t.weightRecent990)]
  else [])
  ++ (if t.revenueFailMin > t.revenuePassMin then ["revenueFailMin must be <= revenuePassMin"] else [])
  ++ (if t.revenuePassMin > t.revenuePassMax then ["revenuePassMin must be <= revenuePassMax"] else [])
  ++ (if t.revenuePassMax > t.revenueReviewMax then ["revenuePassMax must be <= revenueReviewMax"] else [])
  ++ (if t.expenseRatioLowReview > t.expenseRatioPassMin then ["expenseRatioLowReview must be <= expenseRatioPassMin"] else [])
  ++ (if t.expenseRatioPassMin > t.expenseRatioPassMax then ["expenseRatioPassMin must be <= expenseRatioPassMax"] else [])
  ++ (if t.expenseRatioPassMax > t.expenseRatioHighReview then ["expenseRatioPassMax must be <= expenseRatioHighReview"] else [])
  ++ (if t.yearsReviewMin > t.yearsPassMin then ["yearsReviewMin must be <= yearsPassMin"] else [])
  ++ (if t.filing990PassMax > t.filing990ReviewMax then ["filing990PassMax must be <= filing990ReviewMax"] else [])
  ++ (if t.scoreReviewMin > t.scorePassMin then ["scoreReviewMin must be <= scorePassMin"] else [])
  ++ (if t.scorePassMin < 0 ∨ t.scorePassMin > 100 then ["scorePassMin must be between 0 and 100"] else [])
  ++ (if t.scoreReviewMin < 0 ∨ t.scoreReviewMin > 100 then ["scoreReviewMin must be between 0 and 100"] else [])
  ++ (if t.revenueFailMin < 0 then ["revenueFailMin must be non-negative"] else [])
  ++ (if t.revenueReviewMax < 0 then ["revenueReviewMax must be non-negative"] else [])
  ++ (if t.yearsReviewMin < 0 then ["yearsReviewMin must be non-negative"] else [])
  ++ (if t.yearsPassMin < 0 then ["yearsPassMin must be non-negative"] else [])
  ++ (if t.filing990PassMax < 0 then ["filing990PassMax must be non-negative"] else [])
  ++ (if t.filing990ReviewMax < 0 then ["filing990ReviewMax must be non-negative"] else [])
  ++ (if t.redFlagTooNewYears < 0 then ["redFlagTooNewYears must be non-negative"] else [])
  ++ (if t.redFlagStale990Years < 0 then ["redFlagStale990Years must be non-negative"] else [])
  ++ (if t.redFlagRevenueDeclinePercent < 0 ∨ t.redFlagRevenueDeclinePercent > 1 then
    ["redFlagRevenueDeclinePercent must be between 0 and 1"]
  else [])

/-- Embeds validateThresholds of config.ts: ok when no rule is violated,
otherwise one error whose message joins every collected violation. -/
def validateThresholds (t : VettingThresholds) : Except String Unit :=
  let errors := thresholdErrors t
  if errors.length > 0 then
    Except.error ("Invalid vetting thresholds:\n  - " ++ String.intercalate "\n  - " errors)
  else Except.ok ()

/-- Embeds getNteeMajorCategory of the sector override module: first
character of the code, upper-cased, when it is a letter A..Z. -/
def getNteeMajorCategory (nteeCode : String) : Option Char :=
  if nteeCode = "" then none
  else
    match nteeCode.data with
    | [] => none
    | c :: _ =>
      let firstChar := c.toUpper
      if 'A' ≤ firstChar ∧ firstChar ≤ 'Z' then some firstChar else none

/-- Embeds resolveThresholds with the static SECTOR_OVERRIDES table: the
K (food), A (arts) and E (health) entries shallow-merge their listed fields
onto the base; every other category, and an empty or non-alphabetic code,
returns the base unchanged. -/
def resolveThresholds (base : VettingThresholds) (nteeCode : String) : VettingThresholds :=
  match getNteeMajorCategory nteeCode with
  | none => base
  | some category =>
    if category = 'K' then
      { base with
          expenseRatioPassMin := 0.6
          expenseRatioPassMax := 1.3
          expenseRatioHighReview := 1.5
          redFlagHighExpenseRatio := 1.5
          redFlagLowExpenseRatio := 0.4 }
    else if category = 'A' then
      { base with
          revenueFailMin := 25000
          revenuePassMin := 50000
          expenseRatioPassMin := 0.6
          redFlagVeryLowRevenue := 15000 }
    else if category = 'E' then
      { base with
          revenuePassMax := 50000000
          revenueReviewMax := 100000000
          redFlagHighCompensation := some 0.5
          redFlagModerateCompensation := some 0.35 }
    else base

/-- Polarity tag of a key-factor message in messages.ts. -/
inductive FactorWeight
  | positive
  | negative
  | neutral
deriving DecidableEq, Repr

/-- Prefix character a polarity renders as in generateSummary. -/
def factorPrefix : FactorWeight → String
  | FactorWeight.positive => "+"
  | FactorWeight.negative => "-"
  | FactorWeight.neutral => "~"

/-- Embeds the CHECK_MESSAGES table of messages.ts: per check name, the
factor text and polarity for each tri-state result; none for a check name
the table does not know. -/
def CHECK_MESSAGES : String → Option (CheckResult → String × FactorWeight)
  | "501c3_status" => some (fun r =>
      match r with
      | CheckResult.PASS => ("501(c)(3) tax-exempt status verified", FactorWeight.positive)
      | CheckResult.REVIEW => ("501(c)(3) status needs verification", FactorWeight.neutral)
      | CheckResult.FAIL => ("Not a 501(c)(3) organization", FactorWeight.negative))
  | "years_operating" => some (fun r =>
      match r with
      | CheckResult.PASS => ("Established track record (3+ years)", FactorWeight.positive)
      | CheckResult.REVIEW => ("Newer organization (1-3 years)", FactorWeight.neutral)
      | CheckResult.FAIL => ("Insufficient operating history", FactorWeight.negative))
  | "revenue_range" => some (fun r =>
      match r with
      | CheckResult.PASS => ("Revenue in target range ($100K-$10M)", FactorWeight.positive)
      | CheckResult.REVIEW => ("Revenue outside ideal range", FactorWeight.neutral)
      | CheckResult.FAIL => ("Revenue outside acceptable range", FactorWeight.negative))
  | "overhead_ratio" => some (fun r =>
      match r with
      | CheckResult.PASS => ("Healthy expense-to-revenue ratio", FactorWeight.positive)
      | CheckResult.REVIEW => ("Expense ratio needs review", FactorWeight.neutral)
      | CheckResult.FAIL => ("Concerning expense ratio", FactorWeight.negative))
  | "recent_990" => some (fun r =>
      match r with
      | CheckResult.PASS => ("Recent financial data available", FactorWeight.positive)
      | CheckResult.REVIEW => ("Financial data slightly dated", FactorWeight.neutral)
      | CheckResult.FAIL => ("Financial data too old or missing", FactorWeight.negative))
  | _ => none

/-- Embeds the RED_FLAG_FACTORS table of messages.ts. -/
def RED_FLAG_FACTORS : String → Option String
  | "no_990_on_file" => some "No 990 filings on record"
  | "stale_990" => some "Financial data is severely outdated"
  | "low_fund_deployment" => some "Low fund deployment ratio"
  | "very_high_overhead" => some "Unsustainable expense-to-revenue ratio"
  | "no_ruling_date" => some "No IRS determination date"
  | "very_low_revenue" => some "Very small operation"
  | "revenue_decline" => some "Significant revenue decline"
  | "not_501c3" => some "Not tax-exempt under 501(c)(3)"
  | "too_new" => some "Organization is less than 1 year old"
  | "high_officer_compensation" => some "High officer/director compensation ratio"
  | _ => none

/-- Static per-verdict narrative configuration. -/
structure VerdictConfig where
  headline : String
  template : String
  next_steps : List String

/-- Embeds the VERDICT_CONFIG table of messages.ts (placeholder braces are
written with character escapes). -/
def VERDICT_CONFIG : Recommendation → VerdictConfig
  | Recommendation.PASS =>
    { headline := "Approved for Tier 2 Vetting"
      template := "Organization meets Tier 1 criteria with a score of \x7b\x7bscore\x7d\x7d/100. \x7b\x7bname\x7d\x7d is a verified 501(c)(3) with \x7b\x7byears\x7d\x7d years of operating history and healthy financials."
      next_steps :=
        ["Proceed to Tier 2 deep-dive vetting",
         "Review program effectiveness and impact metrics",
         "Verify leadership and governance structure"] }
  | Recommendation.REVIEW =>
    { headline := "Manual Review Required"
      template := "Organization scored \x7b\x7bscore\x7d\x7d/100, requiring manual review. \x7b\x7bissues_summary\x7d\x7d Verify these concerns before proceeding."
      next_steps :=
        ["Review flagged items manually",
         "Request additional documentation if needed",
         "Re-evaluate after addressing concerns"] }
  | Recommendation.REJECT =>
    { headline := "Does Not Meet Criteria"
      template := "Organization does not meet minimum Tier 1 criteria (score: \x7b\x7bscore\x7d\x7d/100). \x7b\x7bissues_summary\x7d\x7d"
      next_steps :=
        ["Do not proceed with funding consideration",
         "Document rejection reason for records",
         "Consider alternative organizations in this space"] }

/-- Body of the first generateSummary loop: one line per check with a
known message mapping, appended to the accumulated key factors. -/
def checkFactorStep (acc : List String) (check : Tier1Check) : List String :=
  match CHECK_MESSAGES check.name with
  | some msgs =>
    let m := msgs check.result
    acc ++ [factorPrefix m.2 ++ " " ++ m.1]
  | none => acc

/-- Body of the second generateSummary loop: the flag's table text (with
the flag's own detail as fallback) becomes a dash-prefixed line carrying
the severity, skipped when the text already occurs as a substring of one
of the accumulated lines. -/
def flagFactorStep (acc : List String) (flag : RedFlag) : List String :=
  let flagMsg := (RED_FLAG_FACTORS flag.type).getD flag.detail
  let factorText := "- " ++ flagMsg ++ " (" ++ severityStr flag.severity ++ ")"
  if acc.any (fun f => jsIncludes f flagMsg) then acc else acc ++ [factorText]

/-- Embeds generateSummary of messages.ts. Both loops over checks and red
flags are folds over the growing keyFactors list, exactly as the source
mutates it; the red-flag dedup test runs against everything accumulated so
far, check lines and earlier flag lines alike. -/
def generateSummary (name : String) (score : ℚ) (recommendation : Recommendation)
    (checks : List Tier1Check) (redFlags : List RedFlag) (yearsOperating : Option ℚ) :
    Tier1Summary :=
  let config := VERDICT_CONFIG recommendation
  let keyFactors := checks.foldl checkFactorStep []
  let keyFactors := redFlags.foldl flagFactorStep keyFactors
  let issues := ((checks.filter (fun c => c.result ≠ CheckResult.PASS)).map
    (fun c => c.detail)).take 3
  let issuesSummary :=
    if issues.length > 0 then "Key concerns: " ++ String.intercalate "; " issues ++ "."
    else "No specific concerns identified."
  let justification :=
    jsReplaceOnce
      (jsReplaceOnce
        (jsReplaceOnce
          (jsReplaceOnce config.template "\x7b\x7bscore\x7d\x7d" (jsStr score))
          "\x7b\x7bname\x7d\x7d" name)
        "\x7b\x7byears\x7d\x7d"
        (match yearsOperating with
         | some y => jsStr y
         | none => "unknown"))
      "\x7b\x7bissues_summary\x7d\x7d" issuesSummary
  { headline := config.headline
    justification := justification
    key_factors := keyFactors
    next_steps := config.next_steps }

/-- Embeds buildReviewReasons of scoring.ts. -/
def buildReviewReasons (checks : List Tier1Check) (redFlags : List RedFlag) : List String :=
  ((checks.filter (fun c => c.result ≠ CheckResult.PASS)).map (fun c => c.detail))
  ++ ((redFlags.filter (fun f => f.severity = RedFlagSeverity.HIGH)).map
    (fun f => "RED FLAG: " ++ f.detail))

/-- Embeds runTier1Checks of scoring.ts. -/
def runTier1Checks (profile : NonprofitProfile)
    (filings : Option (List ProPublica990Filing)) (t : VettingThresholds) (now : ℚ) :
    Tier1Result :=
  let checks := tier1Checks profile t now
  let score := calculateScore checks
  let redFlags := detectRedFlags profile filings t now
  let recommendation := getRecommendation score redFlags t
  { ein := profile.ein
    name := profile.name
    passed := recommendation == Recommendation.PASS
    score := score
    summary := generateSummary profile.name score recommendation checks redFlags
      profile.years_operating
    checks := checks
    recommendation := recommendation
    review_reasons := buildReviewReasons checks redFlags
    red_flags := redFlags }

/-- Concrete filing summary used to evaluate the theorems on one input:
empty period string, healthy revenue, no ratios. -/
def sampleSummary : Latest990Summary where
  tax_period := ""
  tax_year := 2024
  form_type := "990"
  total_revenue := some 500000
  total_expenses := 400000
  total_assets := 1000000
  total_liabilities := 100000
  overhead_ratio := none
  officer_compensation_ratio := none

/-- Concrete profile of a non-501(c)(3) organization: exactly one red flag
(not_501c3) fires on it under the default thresholds. -/
def sampleProfile : NonprofitProfile where
  ein := "12-3456789"
  name := "Sample Org"
  ruling_date := "2010-01-01"
  years_operating := some 10
  subsection := "04"
  ntee_code := "B20"
  latest_990 := some sampleSummary
  filing_count := 1

/-- Concrete filing summary with a very low revenue figure and an officer
compensation ratio present. -/
def sampleSummaryLow : Latest990Summary where
  tax_period := ""
  tax_year := 2024
  form_type := "990EZ"
  total_revenue := some 10000
  total_expenses := 9000
  total_assets := 20000
  total_liabilities := 1000
  overhead_ratio := none
  officer_compensation_ratio := some 0.4

/-- Concrete 501(c)(3) profile carrying sampleSummaryLow. -/
def sampleProfileLow : NonprofitProfile where
  ein := "98-7654321"
  name := "Small Org"
  ruling_date := "2012-05-01"
  years_operating := some 8
  subsection := "03"
  ntee_code := "B20"
  latest_990 := some sampleSummaryLow
  filing_count := 2

/-- Concrete filing summary whose tax period string is malformed. -/
def sampleSummaryBad : Latest990Summary where
  tax_period := "bad-data"
  tax_year := 2024
  form_type := "990"
  total_revenue := some 500000
  total_expenses := 400000
  total_assets := 1000000
  total_liabilities := 100000
  overhead_ratio := none
  officer_compensation_ratio := none

/-- Concrete profile carrying the malformed-period filing summary. -/
def sampleProfileBad : NonprofitProfile where
  ein := "11-1111111"
  name := "Bad Period Org"
  ruling_date := "2010-01-01"
  years_operating := some 10
  subsection := "03"
  ntee_code := "B20"
  latest_990 := some sampleSummaryBad
  filing_count := 1

/-- Concrete raw filing: most recent period, negative revenue. -/
def sampleFilingNeg : ProPublica990Filing where
  tax_prd := 202306
  totrevenue := some (-50000)

/-- Concrete raw filing: previous period, positive revenue. -/
def sampleFilingPrev : ProPublica990Filing where
  tax_prd := 202206
  totrevenue := some 100000

/-- Contribution of one check outcome to the raw score, as the spec words
it: pass contributes the full weight, review half the weight, fail zero. -/
def specContribution (c : Tier1Check) : ℚ :=
  match c.result with
  | CheckResult.PASS => c.weight
  | CheckResult.REVIEW => c.weight / 2
  | CheckResult.FAIL => 0

/-- Key-factor lines derived from the checks, as the spec words it: one
line per check with a known message mapping, prefixed by its polarity. -/
def specCheckFactors (checks : List Tier1Check) : List String :=
  checks.filterMap (fun check =>
    (CHECK_MESSAGES check.name).map (fun msgs =>
      factorPrefix (msgs check.result).2 ++ " " ++ (msgs check.result).1))

/-- Modelled from the amended claim: the red-flag lines appended after the
check lines. Each flag renders as a dash-prefixed line of its table text
(falling back to the flag's own detail for unrecognized types) with the
severity appended, and is skipped exactly when its text already occurs as
a substring of one of the lines accumulated so far, check-derived lines
and earlier flag lines alike. -/
def specFlagFactors (acc : List String) : List RedFlag → List String
  | [] => []
  | flag :: rest =>
    let flagMsg := (RED_FLAG_FACTORS flag.type).getD flag.detail
    let factorText := "- " ++ flagMsg ++ " (" ++ severityStr flag.severity ++ ")"
    if acc.any (fun f2 => jsIncludes f2 flagMsg) then specFlagFactors acc rest
    else factorText :: specFlagFactors (acc ++ [factorText]) rest

/-- Modelled from the amended claim: all key-factor lines, the check lines
followed by the deduplicated flag lines. -/
def specKeyFactors (checks : List Tier1Check) (redFlags : List RedFlag) : List String :=
  specCheckFactors checks ++ specFlagFactors (specCheckFactors checks) redFlags

section Helpers

variable {α : Type}

/-- Membership in a conditional singleton list. -/
theorem mem_ite_singleton {c : Prop} [Decidable c] {m x : α} :
    x ∈ (if c then [m] else ([] : List α)) ↔ c ∧ x = m := by
  split <;> simp_all

/-- Count of a conditional singleton list. -/
theorem countP_ite_singleton {c : Prop} [Decidable c] {m : α} {p : α → Bool} :
    (if c then [m] else ([] : List α)).countP p
      = if c ∧ p m = true then 1 else 0 := by
  split <;> simp_all [List.countP_cons]

/-- Score accumulation lemma: the fold of calculateScore adds the mapped
contributions to the accumulator. -/
theorem score_foldl_eq (cs : List Tier1Check) :
    ∀ a : ℚ,
      cs.foldl
        (fun score check =>
          match check.result with
          | CheckResult.PASS => score + check.weight
          | CheckResult.REVIEW => score + check.weight * 0.5
          | CheckResult.FAIL => score)
        a
      = a + (cs.map specContribution).sum := by
  induction cs with
  | nil => intro a; simp
  | cons c cs ih =>
    intro a
    rcases hr : c.result <;>
      simp [List.foldl_cons, hr, ih, specContribution] <;> ring

/-- Each contribution lies between zero and the weight of its check. -/
theorem specContribution_bounds (c : Tier1Check) (hw : 0 ≤ c.weight) :
    0 ≤ specContribution c ∧ specContribution c ≤ c.weight := by
  rcases hr : c.result <;> simp only [specContribution, hr] <;> constructor <;> linarith

/-- Floor-based rounding stays inside a bounded range of integers. -/
theorem jsRound_bounds {x : ℚ} (h0 : 0 ≤ x) (h100 : x ≤ 100) :
    0 ≤ jsRound x ∧ jsRound x ≤ 100 := by
  unfold jsRound
  constructor
  · exact Int.le_floor.mpr (by push_cast; linarith)
  · have : (⌊x + 1 / 2⌋ : ℤ) ≤ ⌊(100 : ℚ) + 1 / 2⌋ := Int.floor_le_floor (by linarith)
    have h2 : (⌊(100 : ℚ) + 1 / 2⌋ : ℤ) = 100 := by norm_num
    omega

end Helpers

/-- C1 claim statement holds: any HIGH flag forces REJECT regardless of the
score; with no HIGH flag the verdict is PASS at or above scorePassMin,
REVIEW at or above scoreReviewMin, and REJECT below both. -/
theorem claim_C1 (score : ℚ) (flags : List RedFlag) (t : VettingThresholds) :
    (getRecommendation score flags t = Recommendation.REJECT ↔
      (∃ f ∈ flags, f.severity = RedFlagSeverity.HIGH) ∨
        (score < t.scorePassMin ∧ score < t.scoreReviewMin))
  ∧ (getRecommendation score flags t = Recommendation.PASS ↔
      (∀ f ∈ flags, f.severity ≠ RedFlagSeverity.HIGH) ∧ t.scorePassMin ≤ score)
  ∧ (getRecommendation score flags t = Recommendation.REVIEW ↔
      (∀ f ∈ flags, f.severity ≠ RedFlagSeverity.HIGH) ∧
        score < t.scorePassMin ∧ t.scoreReviewMin ≤ score) := by
  have hany : (flags.any (fun flag => flag.severity == RedFlagSeverity.HIGH) = true) ↔
      ∃ f ∈ flags, f.severity = RedFlagSeverity.HIGH := by
    simp [List.any_eq_true]
  unfold getRecommendation
  by_cases h : flags.any (fun flag => flag.severity == RedFlagSeverity.HIGH) = true
  · have hex := hany.mp h
    simp only [if_pos h]
    refine ⟨⟨fun _ => Or.inl hex, fun _ => by trivial⟩, ?_, ?_⟩ <;>
      · constructor
        · intro hcontra; cases hcontra
        · rintro ⟨hall, -⟩
          obtain ⟨f, hfmem, hfhigh⟩ := hex
          exact absurd hfhigh (hall f hfmem)
  · have hall : ∀ f ∈ flags, f.severity ≠ RedFlagSeverity.HIGH := by
      intro f hfmem
      by_contra hcon
      exact h (hany.mpr ⟨f, hfmem, hcon⟩)
    have hnex : ¬ ∃ f ∈ flags, f.severity = RedFlagSeverity.HIGH := fun he => h (hany.mpr he)
    simp only [if_neg h]
    by_cases hp : score ≥ t.scorePassMin
    · simp only [if_pos hp]
      refine ⟨?_, ?_, ?_⟩
      · constructor
        · intro hcontra; cases hcontra
        · rintro (he | ⟨hlt, -⟩)
          · exact absurd he hnex
          · exact absurd hp (not_le.mpr hlt)
      · exact ⟨fun _ => ⟨hall, hp⟩, fun _ => by trivial⟩
      · constructor
        · intro hcontra; cases hcontra
        · rintro ⟨-, hlt, -⟩
          exact absurd hp (not_le.mpr hlt)
    · have hplt : score < t.scorePassMin := not_le.mp hp
      simp only [if_neg hp]
      by_cases hr : score ≥ t.scoreReviewMin
      · simp only [if_pos hr]
        refine ⟨?_, ?_, ?_⟩
        · constructor
          · intro hcontra; cases hcontra
          · rintro (he | ⟨-, hlt⟩)
            · exact absurd he hnex
            · exact absurd hr (not_le.mpr hlt)
        · constructor
          · intro hcontra; cases hcontra
          · rintro ⟨-, hle⟩
            exact absurd hle (not_le.mpr hplt)
        · exact ⟨fun _ => ⟨hall, hplt, hr⟩, fun _ => by trivial⟩
      · have hrlt : score < t.scoreReviewMin := not_le.mp hr
        simp only [if_neg hr]
        refine ⟨⟨fun _ => Or.inr ⟨hplt, hrlt⟩, fun _ => by trivial⟩, ?_, ?_⟩
        · constructor
          · intro hcontra; cases hcontra
          · rintro ⟨-, hle⟩
            exact absurd hle (not_le.mpr hplt)
        · constructor
          · intro hcontra; cases hcontra
          · rintro ⟨-, -, hle⟩
            exact absurd hle (not_le.mpr hrlt)

/-- C2 claim statement holds: the score is the half-up rounding of the sum
in which PASS contributes the full weight, REVIEW half, FAIL zero; the
empty list scores 0; and the five evaluator outcomes under non-negative
weights summing to 100 yield an integer score in the range 0..100. -/
theorem claim_C2 :
    (∀ checks : List Tier1Check,
      calculateScore checks = ((jsRound ((checks.map specContribution).sum) : ℤ) : ℚ))
  ∧ calculateScore [] = 0
  ∧ (∀ (p : NonprofitProfile) (t : VettingThresholds) (now : ℚ),
      0 ≤ t.weight501c3Status → 0 ≤ t.weightYearsOperating → 0 ≤ t.weightRevenueRange →
      0 ≤ t.weightOverheadRatio → 0 ≤ t.weightRecent990 →
      t.weight501c3Status + t.weightYearsOperating + t.weightRevenueRange
        + t.weightOverheadRatio + t.weightRecent990 = 100 →
      (∃ n : ℤ, calculateScore (tier1Checks p t now) = (n : ℚ)) ∧
        0 ≤ calculateScore (tier1Checks p t now) ∧
        calculateScore (tier1Checks p t now) ≤ 100) := by
  have hmain : ∀ checks : List Tier1Check,
      calculateScore checks = ((jsRound ((checks.map specContribution).sum) : ℤ) : ℚ) := by
    intro checks
    unfold calculateScore
    rw [score_foldl_eq checks 0, zero_add]
  refine ⟨hmain, by norm_num [calculateScore, jsRound], ?_⟩
  intro p t now h1 h2 h3 h4 h5 hsum
  refine ⟨⟨jsRound ((List.map specContribution (tier1Checks p t now)).sum), hmain _⟩, ?_⟩
  have hw1 : (check501c3Status p t).weight = t.weight501c3Status := rfl
  have hw2 : (checkYearsOperating p t).weight = t.weightYearsOperating := rfl
  have hw3 : (checkRevenueRange p t).weight = t.weightRevenueRange := rfl
  have hw4 : (checkOverheadRatio p t).weight = t.weightOverheadRatio := rfl
  have hw5 : (checkRecent990 p t now).weight = t.weightRecent990 := rfl
  have b1 := specContribution_bounds (check501c3Status p t) (by rw [hw1]; exact h1)
  have b2 := specContribution_bounds (checkYearsOperating p t) (by rw [hw2]; exact h2)
  have b3 := specContribution_bounds (checkRevenueRange p t) (by rw [hw3]; exact h3)
  have b4 := specContribution_bounds (checkOverheadRatio p t) (by rw [hw4]; exact h4)
  have b5 := specContribution_bounds (checkRecent990 p t now) (by rw [hw5]; exact h5)
  have hsumdef : (List.map specContribution (tier1Checks p t now)).sum
      = specContribution (check501c3Status p t) + specContribution (checkYearsOperating p t)
        + specContribution (checkRevenueRange p t) + specContribution (checkOverheadRatio p t)
        + specContribution (checkRecent990 p t now) := by
    simp [tier1Checks]
    ring
  have hlo : 0 ≤ (List.map specContribution (tier1Checks p t now)).sum := by
    rw [hsumdef]; linarith [b1.1, b2.1, b3.1, b4.1, b5.1]
  have hhi : (List.map specContribution (tier1Checks p t now)).sum ≤ 100 := by
    rw [hsumdef]
    have := b1.2
    have := b2.2
    have := b3.2
    have := b4.2
    have := b5.2
    rw [hw1] at b1
    rw [hw2] at b2
    rw [hw3] at b3
    rw [hw4] at b4
    rw [hw5] at b5
    linarith [b1.2, b2.2, b3.2, b4.2, b5.2]
  have hb := jsRound_bounds hlo hhi
  rw [hmain (tier1Checks p t now)]
  exact ⟨by exact_mod_cast hb.1, by exact_mod_cast hb.2⟩

/-- Conditional singleton lists are empty exactly when the condition fails. -/
theorem ite_singleton_eq_nil {α : Type} {c : Prop} [Decidable c] {m : α} :
    (if c then [m] else ([] : List α)) = [] ↔ ¬c := by
  split <;> simp_all

/-- C4 claim statement holds: validation succeeds exactly when every spec
condition holds (weights non-negative and summing to 100, the four ordering
chains, score cutoffs inside 0..100, the eight non-negativity rules, and
the decline percentage inside 0..1); the collected error list has one entry
per violated rule; and on failure the one raised message joins all of them. -/
theorem claim_C4 (t : VettingThresholds) :
    (validateThresholds t = Except.ok () ↔
      ((0 ≤ t.weight501c3Status ∧ 0 ≤ t.weightYearsOperating ∧ 0 ≤ t.weightRevenueRange
          ∧ 0 ≤ t.weightOverheadRatio ∧ 0 ≤ t.weightRecent990)
        ∧ t.weight501c3Status + t.weightYearsOperating + t.weightRevenueRange
            + t.weightOverheadRatio + t.weightRecent990 = 100
        ∧ t.revenueFailMin ≤ t.revenuePassMin
        ∧ t.revenuePassMin ≤ t.revenuePassMax
        ∧ t.revenuePassMax ≤ t.revenueReviewMax
        ∧ t.expenseRatioLowReview ≤ t.expenseRatioPassMin
        ∧ t.expenseRatioPassMin ≤ t.expenseRatioPassMax
        ∧ t.expenseRatioPassMax ≤ t.expenseRatioHighReview
        ∧ t.yearsReviewMin ≤ t.yearsPassMin
        ∧ t.filing990PassMax ≤ t.filing990ReviewMax
        ∧ t.scoreReviewMin ≤ t.scorePassMin
        ∧ (0 ≤ t.scorePassMin ∧ t.scorePassMin ≤ 100)
        ∧ (0 ≤ t.scoreReviewMin ∧ t.scoreReviewMin ≤ 100)
        ∧ 0 ≤ t.revenueFailMin
        ∧ 0 ≤ t.revenueReviewMax
        ∧ 0 ≤ t.yearsReviewMin
        ∧ 0 ≤ t.yearsPassMin
        ∧ 0 ≤ t.filing990PassMax
        ∧ 0 ≤ t.filing990ReviewMax
        ∧ 0 ≤ t.redFlagTooNewYears
        ∧ 0 ≤ t.redFlagStale990Years
        ∧ (0 ≤ t.redFlagRevenueDeclinePercent ∧ t.redFlagRevenueDeclinePercent ≤ 1)))
  ∧ (thresholdErrors t).length =
      ((if ¬(0 ≤ t.weight501c3Status ∧ 0 ≤ t.weightYearsOperating ∧ 0 ≤ t.weightRevenueRange
          ∧ 0 ≤ t.weightOverheadRatio ∧ 0 ≤ t.weightRecent990) then 1 else 0)
        + (if ¬(t.weight501c3Status + t.weightYearsOperating + t.weightRevenueRange
            + t.weightOverheadRatio + t.weightRecent990 = 100) then 1 else 0)
        + (if ¬(t.revenueFailMin ≤ t.revenuePassMin) then 1 else 0)
        + (if ¬(t.revenuePassMin ≤ t.revenuePassMax) then 1 else 0)
        + (if ¬(t.revenuePassMax ≤ t.revenueReviewMax) then 1 else 0)
        + (if ¬(t.expenseRatioLowReview ≤ t.expenseRatioPassMin) then 1 else 0)
        + (if ¬(t.expenseRatioPassMin ≤ t.expenseRatioPassMax) then 1 else 0)
        + (if ¬(t.expenseRatioPassMax ≤ t.expenseRatioHighReview) then 1 else 0)
        + (if ¬(t.yearsReviewMin ≤ t.yearsPassMin) then 1 else 0)
        + (if ¬(t.filing990PassMax ≤ t.filing990ReviewMax) then 1 else 0)
        + (if ¬(t.scoreReviewMin ≤ t.scorePassMin) then 1 else 0)
        + (if ¬(0 ≤ t.scorePassMin ∧ t.scorePassMin ≤ 100) then 1 else 0)
        + (if ¬(0 ≤ t.scoreReviewMin ∧ t.scoreReviewMin ≤ 100) then 1 else 0)
        + (if ¬(0 ≤ t.revenueFailMin) then 1 else 0)
        + (if ¬(0 ≤ t.revenueReviewMax) then 1 else 0)
        + (if ¬(0 ≤ t.yearsReviewMin) then 1 else 0)
        + (if ¬(0 ≤ t.yearsPassMin) then 1 else 0)
        + (if ¬(0 ≤ t.filing990PassMax) then 1 else 0)
        + (if ¬(0 ≤ t.filing990ReviewMax) then 1 else 0)
        + (if ¬(0 ≤ t.redFlagTooNewYears) then 1 else 0)
        + (if ¬(0 ≤ t.redFlagStale990Years) then 1 else 0)
        + (if ¬(0 ≤ t.redFlagRevenueDeclinePercent ∧ t.redFlagRevenueDeclinePercent ≤ 1)
            then 1 else 0))
  ∧ (thresholdErrors t ≠ [] →
      validateThresholds t =
        Except.error ("Invalid vetting thresholds:\n  - "
          ++ String.intercalate "\n  - " (thresholdErrors t))) := by
  have hok : validateThresholds t = Except.ok () ↔ thresholdErrors t = [] := by
    simp only [validateThresholds]
    by_cases he : thresholdErrors t = []
    · rw [he]
      simp
    · rw [if_pos (List.length_pos.mpr he)]
      simp [he]
  refine ⟨?_, ?_, ?_⟩
  · rw [hok]
    simp only [thresholdErrors, List.append_eq_nil, ite_singleton_eq_nil, not_or, not_lt,
      not_not, ne_eq, not_and_or, not_le, and_assoc]
  · simp only [thresholdErrors, List.length_append, apply_ite List.length,
      List.length_singleton, List.length_nil, not_and_or, not_le, ne_eq]
  · intro he
    simp only [validateThresholds]
    rw [if_pos (List.length_pos.mpr he)]

section BlockLemmas

variable {f : RedFlag} {p : NonprofitProfile} {s : Latest990Summary}
variable {t : VettingThresholds} {now : ℚ} {fs : List ProPublica990Filing}

/-- Severity and type of the no-990 block. -/
theorem mem_rfNo990 (hf : f ∈ rfNo990 p) :
    f.severity = RedFlagSeverity.HIGH ∧ f.type = "no_990_on_file" := by
  unfold rfNo990 at hf
  split at hf <;> simp_all

/-- Severity and type of the not-501c3 block. -/
theorem mem_rfNot501c3 (hf : f ∈ rfNot501c3 p) :
    f.severity = RedFlagSeverity.HIGH ∧ f.type = "not_501c3" := by
  unfold rfNot501c3 at hf
  split at hf <;> simp_all

/-- Severity and type of the no-ruling-date block. -/
theorem mem_rfNoRulingDate (hf : f ∈ rfNoRulingDate p) :
    f.severity = RedFlagSeverity.HIGH ∧ f.type = "no_ruling_date" := by
  unfold rfNoRulingDate at hf
  split at hf <;> simp_all

/-- Severity and type of the too-new block. -/
theorem mem_rfTooNew (hf : f ∈ rfTooNew p t) :
    f.severity = RedFlagSeverity.MEDIUM ∧ f.type = "too_new" := by
  unfold rfTooNew at hf
  split at hf <;> (try split at hf) <;> simp_all

/-- Severity and type of the stale-990 block. -/
theorem mem_rfStale990 (hf : f ∈ rfStale990 s t now) :
    f.severity = RedFlagSeverity.HIGH ∧ f.type = "stale_990" := by
  unfold rfStale990 at hf
  split at hf <;> (try split at hf) <;> (try split at hf) <;> simp_all

/-- Severity and type of the expense-ratio block. -/
theorem mem_rfExpenseRatio (hf : f ∈ rfExpenseRatio s t) :
    (f.severity = RedFlagSeverity.HIGH ∧ f.type = "very_high_overhead") ∨
      (f.severity = RedFlagSeverity.MEDIUM ∧ f.type = "low_fund_deployment") := by
  unfold rfExpenseRatio at hf
  split at hf <;> (try split at hf) <;> (try split at hf) <;> simp_all

/-- Severity and type of the very-low-revenue block. -/
theorem mem_rfVeryLowRevenue (hf : f ∈ rfVeryLowRevenue s t) :
    f.severity = RedFlagSeverity.MEDIUM ∧ f.type = "very_low_revenue" := by
  unfold rfVeryLowRevenue at hf
  split at hf <;> (try split at hf) <;> simp_all

/-- Severity and type of the officer-compensation block. -/
theorem mem_rfOfficerComp (hf : f ∈ rfOfficerComp s t) :
    f.type = "high_officer_compensation" ∧
      (f.severity = RedFlagSeverity.HIGH ∨ f.severity = RedFlagSeverity.MEDIUM) := by
  unfold rfOfficerComp at hf
  split at hf <;> (try split at hf) <;> (try split at hf) <;> (try split at hf) <;> simp_all

/-- Severity and type of the revenue-decline block. -/
theorem mem_rfRevenueDecline (hf : f ∈ rfRevenueDecline fs t) :
    f.severity = RedFlagSeverity.MEDIUM ∧ f.type = "revenue_decline" := by
  unfold rfRevenueDecline at hf
  split at hf <;> (try split at hf) <;> (try split at hf) <;> (try split at hf) <;> simp_all

/-- Severity and type constraints over the whole latest-990 block. -/
theorem mem_rfLatest990 (hf : f ∈ rfLatest990 s t now) :
    (f.severity = RedFlagSeverity.HIGH ∨ f.severity = RedFlagSeverity.MEDIUM) ∧
      (f.type = "stale_990" ∨ f.type = "very_high_overhead" ∨
        f.type = "low_fund_deployment" ∨ f.type = "very_low_revenue" ∨
        f.type = "high_officer_compensation") := by
  unfold rfLatest990 at hf
  simp only [List.mem_append] at hf
  rcases hf with ((h | h) | h) | h
  · have := mem_rfStale990 h
    exact ⟨Or.inl this.1, Or.inl this.2⟩
  · rcases mem_rfExpenseRatio h with ⟨hs, ht⟩ | ⟨hs, ht⟩
    · exact ⟨Or.inl hs, Or.inr (Or.inl ht)⟩
    · exact ⟨Or.inr hs, Or.inr (Or.inr (Or.inl ht))⟩
  · have := mem_rfVeryLowRevenue h
    exact ⟨Or.inr this.1, Or.inr (Or.inr (Or.inr (Or.inl this.2)))⟩
  · have := mem_rfOfficerComp h
    exact ⟨this.2, Or.inr (Or.inr (Or.inr (Or.inr this.1)))⟩

/-- Membership in detectRedFlags splits into membership in one push-site
block. -/
theorem mem_detectRedFlags_cases
    {filings : Option (List ProPublica990Filing)}
    (hf : f ∈ detectRedFlags p filings t now) :
    f ∈ rfNo990 p ∨ f ∈ rfNot501c3 p ∨ f ∈ rfNoRulingDate p ∨ f ∈ rfTooNew p t ∨
      (∃ s2, p.latest_990 = some s2 ∧ f ∈ rfLatest990 s2 t now) ∨
      (∃ fs2, filings = some fs2 ∧ 2 ≤ fs2.length ∧ f ∈ rfRevenueDecline fs2 t) := by
  unfold detectRedFlags at hf
  simp only [List.mem_append] at hf
  rcases hf with ((((h | h) | h) | h) | h) | h
  · exact Or.inl h
  · exact Or.inr (Or.inl h)
  · exact Or.inr (Or.inr (Or.inl h))
  · exact Or.inr (Or.inr (Or.inr (Or.inl h)))
  · rcases hl : p.latest_990 with _ | s2
    · rw [hl] at h
      cases h
    · rw [hl] at h
      exact Or.inr (Or.inr (Or.inr (Or.inr (Or.inl ⟨s2, rfl, h⟩))))
  · rcases hfi : filings with _ | fs2
    · simp only [hfi] at h
      cases h
    · simp only [hfi] at h
      by_cases hlen : 2 ≤ fs2.length
      · rw [if_pos hlen] at h
        exact Or.inr (Or.inr (Or.inr (Or.inr (Or.inr ⟨fs2, rfl, hlen, h⟩))))
      · rw [if_neg hlen] at h
        cases h

end BlockLemmas

/-- C10 claim statement holds: every red flag the detector emits has HIGH
or MEDIUM severity; no code path produces a LOW flag. -/
theorem claim_C10 (p : NonprofitProfile) (filings : Option (List ProPublica990Filing))
    (t : VettingThresholds) (now : ℚ) (f : RedFlag)
    (hf : f ∈ detectRedFlags p filings t now) :
    f.severity = RedFlagSeverity.HIGH ∨ f.severity = RedFlagSeverity.MEDIUM := by
  rcases mem_detectRedFlags_cases hf with h | h | h | h | ⟨s2, -, h⟩ | ⟨fs2, -, -, h⟩
  · exact Or.inl (mem_rfNo990 h).1
  · exact Or.inl (mem_rfNot501c3 h).1
  · exact Or.inl (mem_rfNoRulingDate h).1
  · exact Or.inr (mem_rfTooNew h).1
  · exact (mem_rfLatest990 h).1
  · exact Or.inr (mem_rfRevenueDecline h).1

/-- Witness for C10: the flag emitted for sampleProfile has HIGH or MEDIUM
severity. -/
theorem claim_C10_witness :
    ({ severity := RedFlagSeverity.HIGH, type := "not_501c3"
       detail := "Organization is 501(c)(04) - donations may not be tax-deductible" } :
      RedFlag).severity = RedFlagSeverity.HIGH ∨
    ({ severity := RedFlagSeverity.HIGH, type := "not_501c3"
       detail := "Organization is 501(c)(04) - donations may not be tax-deductible" } :
      RedFlag).severity = RedFlagSeverity.MEDIUM :=
  claim_C10 sampleProfile none defaultThresholds 0 _ (by decide)

section BlockMembership

variable {f : RedFlag} {p : NonprofitProfile} {s : Latest990Summary}
variable {t : VettingThresholds} {now : ℚ} {r : ℚ}
variable {filings : Option (List ProPublica990Filing)}

/-- Membership in the latest-990 block splits into the four sub-blocks. -/
theorem mem_rfLatest990_elim (hf : f ∈ rfLatest990 s t now) :
    f ∈ rfStale990 s t now ∨ f ∈ rfExpenseRatio s t ∨
      f ∈ rfVeryLowRevenue s t ∨ f ∈ rfOfficerComp s t := by
  unfold rfLatest990 at hf
  simp only [List.mem_append] at hf
  tauto

/-- A stale-990 flag lies in the latest-990 block. -/
theorem mem_rfLatest990_of_stale (hf : f ∈ rfStale990 s t now) :
    f ∈ rfLatest990 s t now := by
  unfold rfLatest990
  simp only [List.mem_append]
  tauto

/-- A very-low-revenue flag lies in the latest-990 block. -/
theorem mem_rfLatest990_of_vlr (hf : f ∈ rfVeryLowRevenue s t) :
    f ∈ rfLatest990 s t now := by
  unfold rfLatest990
  simp only [List.mem_append]
  tauto

/-- An officer-compensation flag lies in the latest-990 block. -/
theorem mem_rfLatest990_of_comp (hf : f ∈ rfOfficerComp s t) :
    f ∈ rfLatest990 s t now := by
  unfold rfLatest990
  simp only [List.mem_append]
  tauto

/-- Flags of the latest-990 block of the present filing summary appear in
the full detector output. -/
theorem mem_detect_of_latest (hl : p.latest_990 = some s)
    (hf : f ∈ rfLatest990 s t now) : f ∈ detectRedFlags p filings t now := by
  unfold detectRedFlags
  simp only [List.mem_append, hl]
  tauto

/-- Elimination for the very-low-revenue block: a member forces a present
revenue below the threshold. -/
theorem rfVeryLowRevenue_mem_elim (hf : f ∈ rfVeryLowRevenue s t) :
    ∃ r2, s.total_revenue = some r2 ∧ r2 < t.redFlagVeryLowRevenue
      ∧ f.type = "very_low_revenue" := by
  unfold rfVeryLowRevenue at hf
  rcases hrev : s.total_revenue with _ | r2
  · rw [hrev] at hf
    cases hf
  · simp only [hrev] at hf
    by_cases hlt : r2 < t.redFlagVeryLowRevenue
    · rw [if_pos hlt] at hf
      rcases List.mem_singleton.mp hf with rfl
      exact ⟨r2, rfl, hlt, rfl⟩
    · rw [if_neg hlt] at hf
      cases hf

/-- The very-low-revenue block evaluates to its singleton when revenue is
present and below the threshold. -/
theorem rfVeryLowRevenue_eq (hr : s.total_revenue = some r)
    (hlt : r < t.redFlagVeryLowRevenue) :
    rfVeryLowRevenue s t =
      [{ severity := RedFlagSeverity.MEDIUM
         type := "very_low_revenue"
         detail := "Revenue is only $" ++ formatNumber r ++ " - very small operation" }] := by
  unfold rfVeryLowRevenue
  simp only [hr]
  rw [if_pos hlt]

end BlockMembership

/-- C7 claim statement holds: with the filing summary present, the
very-low-revenue flag is emitted exactly when the summary revenue is
present and strictly below redFlagVeryLowRevenue; zero revenue triggers it
(for a positive threshold) and null revenue never does. -/
theorem claim_C7 (p : NonprofitProfile) (filings : Option (List ProPublica990Filing))
    (t : VettingThresholds) (now : ℚ) (s : Latest990Summary)
    (h : p.latest_990 = some s) :
    ((detectRedFlags p filings t now).any (fun f => f.type == "very_low_revenue") = true ↔
      ∃ r, s.total_revenue = some r ∧ r < t.redFlagVeryLowRevenue)
  ∧ (s.total_revenue = some 0 → 0 < t.redFlagVeryLowRevenue →
      (detectRedFlags p filings t now).any (fun f => f.type == "very_low_revenue") = true)
  ∧ (s.total_revenue = none →
      (detectRedFlags p filings t now).any (fun f => f.type == "very_low_revenue") = false) := by
  have hmain : (detectRedFlags p filings t now).any
        (fun f => f.type == "very_low_revenue") = true ↔
      ∃ r, s.total_revenue = some r ∧ r < t.redFlagVeryLowRevenue := by
    rw [List.any_eq_true]
    constructor
    · rintro ⟨f, hmem, hty⟩
      rw [beq_iff_eq] at hty
      rcases mem_detectRedFlags_cases hmem with h1 | h1 | h1 | h1 | ⟨s2, hs2, h1⟩ | ⟨fs2, -, -, h1⟩
      · rw [(mem_rfNo990 h1).2] at hty
        exact absurd hty (by decide)
      · rw [(mem_rfNot501c3 h1).2] at hty
        exact absurd hty (by decide)
      · rw [(mem_rfNoRulingDate h1).2] at hty
        exact absurd hty (by decide)
      · rw [(mem_rfTooNew h1).2] at hty
        exact absurd hty (by decide)
      · rw [h] at hs2
        injection hs2 with hs2
        subst hs2
        rcases mem_rfLatest990_elim h1 with h2 | h2 | h2 | h2
        · rw [(mem_rfStale990 h2).2] at hty
          exact absurd hty (by decide)
        · rcases mem_rfExpenseRatio h2 with ⟨-, h3⟩ | ⟨-, h3⟩ <;>
            (rw [h3] at hty; exact absurd hty (by decide))
        · obtain ⟨r2, hr2, hlt2, -⟩ := rfVeryLowRevenue_mem_elim h2
          exact ⟨r2, hr2, hlt2⟩
        · rw [(mem_rfOfficerComp h2).1] at hty
          exact absurd hty (by decide)
      · rw [(mem_rfRevenueDecline h1).2] at hty
        exact absurd hty (by decide)
    · rintro ⟨r, hr, hlt⟩
      refine ⟨{ severity := RedFlagSeverity.MEDIUM
                type := "very_low_revenue"
                detail := "Revenue is only $" ++ formatNumber r ++ " - very small operation" },
        mem_detect_of_latest h (mem_rfLatest990_of_vlr ?_), rfl⟩
      rw [rfVeryLowRevenue_eq hr hlt]
      exact List.mem_singleton_self _
  refine ⟨hmain, ?_, ?_⟩
  · intro h0 hpos
    exact hmain.mpr ⟨0, h0, hpos⟩
  · intro hnone
    rcases hb : (detectRedFlags p filings t now).any (fun f => f.type == "very_low_revenue")
    · rfl
    · obtain ⟨r, hr, -⟩ := hmain.mp hb
      rw [hnone] at hr
      cases hr

/-- Witness for C7: the characterization instantiated at sampleProfileLow
under the default thresholds. -/
theorem claim_C7_witness :
    (detectRedFlags sampleProfileLow none defaultThresholds 0).any
        (fun f => f.type == "very_low_revenue") = true ↔
      ∃ r, sampleSummaryLow.total_revenue = some r ∧
        r < defaultThresholds.redFlagVeryLowRevenue :=
  (claim_C7 sampleProfileLow none defaultThresholds 0 sampleSummaryLow rfl).1

/-- Elimination for the stale-990 block: a member forces a non-empty
period that is unparseable or parses to an age above the threshold. -/
theorem rfStale990_mem_elim {f : RedFlag} {s : Latest990Summary}
    {t : VettingThresholds} {now : ℚ} (hf : f ∈ rfStale990 s t now) :
    s.tax_period ≠ "" ∧
      (yearsFromTaxPeriod now s.tax_period = none ∨
        ∃ y, yearsFromTaxPeriod now s.tax_period = some y ∧ t.redFlagStale990Years < y) := by
  unfold rfStale990 at hf
  by_cases hp : s.tax_period ≠ ""
  · rw [if_pos hp] at hf
    rcases hy : yearsFromTaxPeriod now s.tax_period with _ | y
    · exact ⟨hp, Or.inl rfl⟩
    · simp only [hy] at hf
      by_cases hgt : y > t.redFlagStale990Years
      · exact ⟨hp, Or.inr ⟨y, rfl, hgt⟩⟩
      · rw [if_neg hgt] at hf
        cases hf
  · rw [if_neg hp] at hf
    cases hf

/-- Introduction for the stale-990 block: a non-empty period that is
unparseable, or parses above the threshold, produces a stale flag. -/
theorem rfStale990_exists {s : Latest990Summary} {t : VettingThresholds} {now : ℚ}
    (hp : s.tax_period ≠ "")
    (hcond : yearsFromTaxPeriod now s.tax_period = none ∨
      ∃ y, yearsFromTaxPeriod now s.tax_period = some y ∧ t.redFlagStale990Years < y) :
    ∃ f ∈ rfStale990 s t now, f.type = "stale_990" := by
  unfold rfStale990
  rw [if_pos hp]
  rcases hcond with hnone | ⟨y, hy, hgt⟩
  · simp only [hnone]
    exact ⟨_, List.mem_singleton_self _, rfl⟩
  · simp only [hy]
    rw [if_pos hgt]
    exact ⟨_, List.mem_singleton_self _, rfl⟩

/-- C6 as amended: the HIGH stale_990 flag is emitted exactly when the
filing summary is present, its period string is non-empty, and the period
either fails to parse (the source then treats the age as Infinity, which
exceeds every threshold) or parses to an age strictly above
redFlagStale990Years. -/
theorem claim_C6 (p : NonprofitProfile) (filings : Option (List ProPublica990Filing))
    (t : VettingThresholds) (now : ℚ) :
    (detectRedFlags p filings t now).any (fun f => f.type == "stale_990") = true ↔
      ∃ s, p.latest_990 = some s ∧ s.tax_period ≠ "" ∧
        (yearsFromTaxPeriod now s.tax_period = none ∨
          ∃ y, yearsFromTaxPeriod now s.tax_period = some y ∧ t.redFlagStale990Years < y) := by
  rw [List.any_eq_true]
  constructor
  · rintro ⟨f, hmem, hty⟩
    rw [beq_iff_eq] at hty
    rcases mem_detectRedFlags_cases hmem with h1 | h1 | h1 | h1 | ⟨s2, hs2, h1⟩ | ⟨fs2, -, -, h1⟩
    · rw [(mem_rfNo990 h1).2] at hty
      exact absurd hty (by decide)
    · rw [(mem_rfNot501c3 h1).2] at hty
      exact absurd hty (by decide)
    · rw [(mem_rfNoRulingDate h1).2] at hty
      exact absurd hty (by decide)
    · rw [(mem_rfTooNew h1).2] at hty
      exact absurd hty (by decide)
    · rcases mem_rfLatest990_elim h1 with h2 | h2 | h2 | h2
      · obtain ⟨hp, hcond⟩ := rfStale990_mem_elim h2
        exact ⟨s2, hs2, hp, hcond⟩
      · rcases mem_rfExpenseRatio h2 with ⟨-, h3⟩ | ⟨-, h3⟩ <;>
          (rw [h3] at hty; exact absurd hty (by decide))
      · obtain ⟨-, -, -, h3⟩ := rfVeryLowRevenue_mem_elim h2
        rw [h3] at hty
        exact absurd hty (by decide)
      · rw [(mem_rfOfficerComp h2).1] at hty
        exact absurd hty (by decide)
    · rw [(mem_rfRevenueDecline h1).2] at hty
      exact absurd hty (by decide)
  · rintro ⟨s, hs, hp, hcond⟩
    obtain ⟨f, hfmem, hfty⟩ := rfStale990_exists hp hcond
    exact ⟨f, mem_detect_of_latest hs (mem_rfLatest990_of_stale hfmem),
      by rw [beq_iff_eq]; exact hfty⟩

/-- Counterexample to C6 as stated: the period string "bad-data" is
unparseable, yet the detector emits the stale_990 flag for it. -/
theorem claim_C6_cex :
    yearsFromTaxPeriod 0 "bad-data" = none ∧
    (detectRedFlags sampleProfileBad none defaultThresholds 0).any
      (fun f => f.type == "stale_990") = true := by
  constructor
  · decide
  · decide

/-- The undefined-aware comparison is true exactly when the threshold is
present and strictly below the value. -/
theorem jsGtOpt_eq_true {x : ℚ} {o : Option ℚ} :
    jsGtOpt x o = true ↔ ∃ y, o = some y ∧ y < x := by
  cases o <;> simp [jsGtOpt]

/-- The undefined-aware comparison is false exactly when no present
threshold lies strictly below the value. -/
theorem jsGtOpt_eq_false {x : ℚ} {o : Option ℚ} :
    jsGtOpt x o = false ↔ ¬∃ y, o = some y ∧ y < x := by
  cases o <;> simp [jsGtOpt]

/-- Elimination for the officer-compensation block: a member forces a
present positive ratio and records which threshold comparison fired. -/
theorem rfOfficerComp_mem_elim {f : RedFlag} {s : Latest990Summary}
    {t : VettingThresholds} (hf : f ∈ rfOfficerComp s t) :
    ∃ r, s.officer_compensation_ratio = some r ∧ 0 < r ∧
      ((f.severity = RedFlagSeverity.HIGH ∧ jsGtOpt r t.redFlagHighCompensation = true) ∨
        (f.severity = RedFlagSeverity.MEDIUM ∧ jsGtOpt r t.redFlagHighCompensation = false ∧
          jsGtOpt r t.redFlagModerateCompensation = true)) := by
  unfold rfOfficerComp at hf
  rcases hc : s.officer_compensation_ratio with _ | r
  · rw [hc] at hf
    cases hf
  · simp only [hc] at hf
    by_cases h0 : r > 0
    · rw [if_pos h0] at hf
      by_cases hhi : jsGtOpt r t.redFlagHighCompensation = true
      · rw [if_pos hhi] at hf
        rcases List.mem_singleton.mp hf with rfl
        exact ⟨r, rfl, h0, Or.inl ⟨rfl, hhi⟩⟩
      · rw [if_neg hhi] at hf
        by_cases hmd : jsGtOpt r t.redFlagModerateCompensation = true
        · rw [if_pos hmd] at hf
          rcases List.mem_singleton.mp hf with rfl
          exact ⟨r, rfl, h0, Or.inr ⟨rfl, Bool.not_eq_true _ ▸ eq_false_of_ne_true hhi, hmd⟩⟩
        · rw [if_neg hmd] at hf
          cases hf
    · rw [if_neg h0] at hf
      cases hf

/-- Introduction for the officer-compensation block, HIGH branch. -/
theorem rfOfficerComp_exists_high {s : Latest990Summary} {t : VettingThresholds} {r : ℚ}
    (hc : s.officer_compensation_ratio = some r) (h0 : 0 < r)
    (hhi : jsGtOpt r t.redFlagHighCompensation = true) :
    ∃ f ∈ rfOfficerComp s t,
      f.type = "high_officer_compensation" ∧ f.severity = RedFlagSeverity.HIGH := by
  unfold rfOfficerComp
  simp only [hc]
  rw [if_pos h0, if_pos hhi]
  exact ⟨_, List.mem_singleton_self _, rfl, rfl⟩

/-- Introduction for the officer-compensation block, MEDIUM branch. -/
theorem rfOfficerComp_exists_med {s : Latest990Summary} {t : VettingThresholds} {r : ℚ}
    (hc : s.officer_compensation_ratio = some r) (h0 : 0 < r)
    (hhi : jsGtOpt r t.redFlagHighCompensation = false)
    (hmd : jsGtOpt r t.redFlagModerateCompensation = true) :
    ∃ f ∈ rfOfficerComp s t,
      f.type = "high_officer_compensation" ∧ f.severity = RedFlagSeverity.MEDIUM := by
  unfold rfOfficerComp
  simp only [hc]
  rw [if_pos h0, if_neg (by simp [hhi]), if_pos hmd]
  exact ⟨_, List.mem_singleton_self _, rfl, rfl⟩

/-- Any detector flag tagged high_officer_compensation comes from the
officer-compensation block of the present filing summary. -/
theorem detect_comp_mem_elim {p : NonprofitProfile}
    {filings : Option (List ProPublica990Filing)} {t : VettingThresholds} {now : ℚ}
    {f : RedFlag} (hmem : f ∈ detectRedFlags p filings t now)
    (hty : f.type = "high_officer_compensation") :
    ∃ s2, p.latest_990 = some s2 ∧ f ∈ rfOfficerComp s2 t := by
  rcases mem_detectRedFlags_cases hmem with h1 | h1 | h1 | h1 | ⟨s2, hs2, h1⟩ | ⟨fs2, -, -, h1⟩
  · rw [(mem_rfNo990 h1).2] at hty
    exact absurd hty (by decide)
  · rw [(mem_rfNot501c3 h1).2] at hty
    exact absurd hty (by decide)
  · rw [(mem_rfNoRulingDate h1).2] at hty
    exact absurd hty (by decide)
  · rw [(mem_rfTooNew h1).2] at hty
    exact absurd hty (by decide)
  · rcases mem_rfLatest990_elim h1 with h2 | h2 | h2 | h2
    · rw [(mem_rfStale990 h2).2] at hty
      exact absurd hty (by decide)
    · rcases mem_rfExpenseRatio h2 with ⟨-, h3⟩ | ⟨-, h3⟩ <;>
        (rw [h3] at hty; exact absurd hty (by decide))
    · obtain ⟨-, -, -, h3⟩ := rfVeryLowRevenue_mem_elim h2
      rw [h3] at hty
      exact absurd hty (by decide)
    · exact ⟨s2, hs2, h2⟩
  · rw [(mem_rfRevenueDecline h1).2] at hty
    exact absurd hty (by decide)

/-- C9 claim statement holds: with the summary present, a HIGH
high_officer_compensation flag is emitted exactly when the ratio is present
and positive and exceeds a present redFlagHighCompensation; a MEDIUM one
exactly when it does not exceed the high threshold but exceeds a present
redFlagModerateCompensation; under the base default thresholds (both
compensation thresholds undefined) the flag is never emitted for any
profile; and resolving the defaults against an NTEE code defines
redFlagHighCompensation exactly for the health sector E. -/
theorem claim_C9 (p : NonprofitProfile) (filings : Option (List ProPublica990Filing))
    (t : VettingThresholds) (now : ℚ) (s : Latest990Summary)
    (h : p.latest_990 = some s) :
    ((∃ f ∈ detectRedFlags p filings t now,
        f.type = "high_officer_compensation" ∧ f.severity = RedFlagSeverity.HIGH) ↔
      ∃ r, s.officer_compensation_ratio = some r ∧ 0 < r ∧
        ∃ hi, t.redFlagHighCompensation = some hi ∧ hi < r)
  ∧ ((∃ f ∈ detectRedFlags p filings t now,
        f.type = "high_officer_compensation" ∧ f.severity = RedFlagSeverity.MEDIUM) ↔
      ∃ r, s.officer_compensation_ratio = some r ∧ 0 < r ∧
        ¬(∃ hi, t.redFlagHighCompensation = some hi ∧ hi < r) ∧
        ∃ md, t.redFlagModerateCompensation = some md ∧ md < r)
  ∧ (∀ (p2 : NonprofitProfile) (filings2 : Option (List ProPublica990Filing)) (now2 : ℚ)
        (f2 : RedFlag), f2 ∈ detectRedFlags p2 filings2 defaultThresholds now2 →
        f2.type ≠ "high_officer_compensation")
  ∧ (∀ ntee : String,
      (resolveThresholds defaultThresholds ntee).redFlagHighCompensation ≠ none ↔
        getNteeMajorCategory ntee = some 'E') := by
  refine ⟨?_, ?_, ?_, ?_⟩
  · constructor
    · rintro ⟨f, hmem, hty, hsev⟩
      obtain ⟨s2, hs2, h2⟩ := detect_comp_mem_elim hmem hty
      rw [h] at hs2
      injection hs2 with hs2
      subst hs2
      obtain ⟨r, hc, h0, hcase⟩ := rfOfficerComp_mem_elim h2
      rcases hcase with ⟨-, hhi⟩ | ⟨hmed, -, -⟩
      · exact ⟨r, hc, h0, jsGtOpt_eq_true.mp hhi⟩
      · rw [hsev] at hmed
        exact absurd hmed (by decide)
    · rintro ⟨r, hc, h0, hhi⟩
      obtain ⟨f, hfm, hft, hfs⟩ :=
        rfOfficerComp_exists_high hc h0 (jsGtOpt_eq_true.mpr hhi)
      exact ⟨f, mem_detect_of_latest h (mem_rfLatest990_of_comp hfm), hft, hfs⟩
  · constructor
    · rintro ⟨f, hmem, hty, hsev⟩
      obtain ⟨s2, hs2, h2⟩ := detect_comp_mem_elim hmem hty
      rw [h] at hs2
      injection hs2 with hs2
      subst hs2
      obtain ⟨r, hc, h0, hcase⟩ := rfOfficerComp_mem_elim h2
      rcases hcase with ⟨hhigh, -⟩ | ⟨-, hhi, hmd⟩
      · rw [hsev] at hhigh
        exact absurd hhigh (by decide)
      · exact ⟨r, hc, h0, jsGtOpt_eq_false.mp hhi, jsGtOpt_eq_true.mp hmd⟩
    · rintro ⟨r, hc, h0, hnhi, hmd⟩
      obtain ⟨f, hfm, hft, hfs⟩ := rfOfficerComp_exists_med hc h0
        (jsGtOpt_eq_false.mpr hnhi) (jsGtOpt_eq_true.mpr hmd)
      exact ⟨f, mem_detect_of_latest h (mem_rfLatest990_of_comp hfm), hft, hfs⟩
  · intro p2 filings2 now2 f2 hmem hty
    obtain ⟨s2, -, h2⟩ := detect_comp_mem_elim hmem hty
    obtain ⟨r, -, -, hcase⟩ := rfOfficerComp_mem_elim h2
    rcases hcase with ⟨-, hhi⟩ | ⟨-, -, hmd⟩
    · obtain ⟨y, hy, -⟩ := jsGtOpt_eq_true.mp hhi
      cases hy
    · obtain ⟨y, hy, -⟩ := jsGtOpt_eq_true.mp hmd
      cases hy
  · intro ntee
    unfold resolveThresholds
    rcases hc : getNteeMajorCategory ntee with _ | c
    · simp [defaultThresholds]
    · by_cases hK : c = 'K'
      · simp [hK, defaultThresholds]
      · by_cases hA : c = 'A'
        · simp [hK, hA, defaultThresholds]
        · by_cases hE : c = 'E'
          · simp [hK, hA, hE]
          · simp [hK, hA, hE, defaultThresholds]

/-- Witness for C9: the HIGH characterization instantiated at
sampleProfileLow, whose summary carries a 40 percent compensation ratio,
under the default thresholds. -/
theorem claim_C9_witness :
    (∃ f ∈ detectRedFlags sampleProfileLow none defaultThresholds 0,
        f.type = "high_officer_compensation" ∧ f.severity = RedFlagSeverity.HIGH) ↔
      ∃ r, sampleSummaryLow.officer_compensation_ratio = some r ∧ 0 < r ∧
        ∃ hi, defaultThresholds.redFlagHighCompensation = some hi ∧ hi < r :=
  (claim_C9 sampleProfileLow none defaultThresholds 0 sampleSummaryLow rfl).1

/-- Length characterization of the revenue-decline block: at most one flag,
and exactly one precisely when the two most recent sorted filings both have
non-null revenue, the previous one positive, the latest one non-negative,
and the decline fraction above the threshold. -/
theorem rfRevenueDecline_length (fs : List ProPublica990Filing) (t : VettingThresholds) :
    ((rfRevenueDecline fs t).length = 1 ↔
      ∃ latest previous rest, sortByTaxPrdDesc fs = latest :: previous :: rest ∧
        ∃ lr pr, latest.totrevenue = some lr ∧ previous.totrevenue = some pr ∧
          0 < pr ∧ 0 ≤ lr ∧ t.redFlagRevenueDeclinePercent < (pr - lr) / pr)
  ∧ (rfRevenueDecline fs t).length ≤ 1 := by
  unfold rfRevenueDecline
  rcases hs : sortByTaxPrdDesc fs with _ | ⟨latest, _ | ⟨previous, rest⟩⟩
  · simp [hs]
  · simp [hs]
  · simp only [hs]
    rcases hlr : latest.totrevenue with _ | lr <;> rcases hpr : previous.totrevenue with _ | pr
    · simp [hs, hlr]
    · simp [hs, hlr]
    · simp [hs, hlr, hpr]
    · by_cases hb : 0 < pr ∧ 0 ≤ lr
      · by_cases hd : (pr - lr) / pr > t.redFlagRevenueDeclinePercent
        · simp only [if_pos hb, if_pos hd]
          refine ⟨⟨fun _ => ⟨latest, previous, rest, rfl, lr, pr, hlr, hpr, hb.1, hb.2, hd⟩,
            fun _ => by simp⟩, by simp⟩
        · simp only [if_pos hb, if_neg hd]
          simp only [List.length_nil, Nat.zero_le, and_true]
          constructor
          · intro h0
            cases h0
          · rintro ⟨l2, p2, r2, heq, lr2, pr2, hlr2, hpr2, hpos2, hnn2, hd2⟩
            injection heq with e1 heq2
            injection heq2 with e2 e3
            subst e1
            subst e2
            rw [hlr] at hlr2
            rw [hpr] at hpr2
            injection hlr2 with e4
            injection hpr2 with e5
            subst e4
            subst e5
            exact absurd hd2 hd
      · simp only [if_neg hb]
        simp only [List.length_nil, Nat.zero_le, and_true]
        constructor
        · intro h0
          cases h0
        · rintro ⟨l2, p2, r2, heq, lr2, pr2, hlr2, hpr2, hpos2, hnn2, hd2⟩
          injection heq with e1 heq2
          injection heq2 with e2 e3
          subst e1
          subst e2
          rw [hlr] at hlr2
          rw [hpr] at hpr2
          injection hlr2 with e4
          injection hpr2 with e5
          subst e4
          subst e5
          exact absurd ⟨hpos2, hnn2⟩ hb

/-- C5 as amended: the detector emits exactly one revenue_decline flag
precisely when at least two raw filings exist and, after the stable
descending sort by period code, the two most recent both carry non-null
revenue, the previous one strictly positive, the latest one non-negative,
and (previous - latest) / previous strictly exceeds
redFlagRevenueDeclinePercent; in every other case (including a negative
latest revenue) no such flag is emitted, and never more than one. -/
theorem claim_C5 (p : NonprofitProfile) (filings : Option (List ProPublica990Filing))
    (t : VettingThresholds) (now : ℚ) :
    ((detectRedFlags p filings t now).countP (fun f => f.type == "revenue_decline") = 1 ↔
      ∃ fs, filings = some fs ∧ 2 ≤ fs.length ∧
        ∃ latest previous rest, sortByTaxPrdDesc fs = latest :: previous :: rest ∧
          ∃ lr pr, latest.totrevenue = some lr ∧ previous.totrevenue = some pr ∧
            0 < pr ∧ 0 ≤ lr ∧ t.redFlagRevenueDeclinePercent < (pr - lr) / pr)
  ∧ (detectRedFlags p filings t now).countP (fun f => f.type == "revenue_decline") ≤ 1 := by
  have hz : ∀ (l : List RedFlag), (∀ f ∈ l, f.type ≠ "revenue_decline") →
      l.countP (fun f => f.type == "revenue_decline") = 0 := by
    intro l hl
    refine List.countP_eq_zero.mpr ?_
    intro f hf
    simp [hl f hf]
  have hc1 : (rfNo990 p).countP (fun f => f.type == "revenue_decline") = 0 :=
    hz _ (fun f hf => by rw [(mem_rfNo990 hf).2]; decide)
  have hc2 : (rfNot501c3 p).countP (fun f => f.type == "revenue_decline") = 0 :=
    hz _ (fun f hf => by rw [(mem_rfNot501c3 hf).2]; decide)
  have hc3 : (rfNoRulingDate p).countP (fun f => f.type == "revenue_decline") = 0 :=
    hz _ (fun f hf => by rw [(mem_rfNoRulingDate hf).2]; decide)
  have hc4 : (rfTooNew p t).countP (fun f => f.type == "revenue_decline") = 0 :=
    hz _ (fun f hf => by rw [(mem_rfTooNew hf).2]; decide)
  have hc5 : ∀ s2, (rfLatest990 s2 t now).countP (fun f => f.type == "revenue_decline") = 0 := by
    intro s2
    refine hz _ (fun f hf => ?_)
    rcases (mem_rfLatest990 hf).2 with h | h | h | h | h <;> (rw [h]; decide)
  have hall : ∀ fs2, (rfRevenueDecline fs2 t).countP (fun f => f.type == "revenue_decline")
      = (rfRevenueDecline fs2 t).length := by
    intro fs2
    refine List.countP_eq_length.mpr ?_
    intro f hf
    rw [(mem_rfRevenueDecline hf).2]
    decide
  have hsplit : (detectRedFlags p filings t now).countP (fun f => f.type == "revenue_decline")
      = (match filings with
        | some fs => if 2 ≤ fs.length then rfRevenueDecline fs t else []
        | none => []).countP (fun (f : RedFlag) => f.type == "revenue_decline") := by
    unfold detectRedFlags
    rcases hl : p.latest_990 with _ | s2 <;>
      simp [List.countP_append, hc1, hc2, hc3, hc4, hc5]
  rw [hsplit]
  rcases hfi : filings with _ | fs
  · simp
  · simp only
    by_cases hlen : 2 ≤ fs.length
    · rw [if_pos hlen, hall fs]
      obtain ⟨hiff, hle⟩ := rfRevenueDecline_length fs t
      refine ⟨?_, hle⟩
      rw [hiff]
      constructor
      · rintro ⟨latest, previous, rest, hrest⟩
        exact ⟨fs, rfl, hlen, latest, previous, rest, hrest⟩
      · rintro ⟨fs2, hfs2, -, latest, previous, rest, hrest⟩
        injection hfs2 with hfs2
        subst hfs2
        exact ⟨latest, previous, rest, hrest⟩
    · rw [if_neg hlen]
      simp only [List.countP_nil, Nat.zero_le, and_true]
      constructor
      · intro h0
        cases h0
      · rintro ⟨fs2, hfs2, hlen2, -⟩
        injection hfs2 with hfs2
        subst hfs2
        exact absurd hlen2 hlen

/-- Counterexample to C5 as stated: two filings whose previous revenue is
positive with a finite decline fraction of 150 percent, above the 50
percent default threshold, yet no revenue_decline flag is emitted because
the latest revenue is negative. -/
theorem claim_C5_cex :
    sortByTaxPrdDesc [sampleFilingNeg, sampleFilingPrev]
        = [sampleFilingNeg, sampleFilingPrev] ∧
    sampleFilingPrev.totrevenue = some 100000 ∧ (0 : ℚ) < 100000 ∧
    sampleFilingNeg.totrevenue = some (-50000) ∧
    defaultThresholds.redFlagRevenueDeclinePercent
      < ((100000 : ℚ) - (-50000)) / 100000 ∧
    (detectRedFlags sampleProfile (some [sampleFilingNeg, sampleFilingPrev])
        defaultThresholds 0).countP (fun f => f.type == "revenue_decline") = 0 := by
  refine ⟨by decide, rfl, by norm_num, rfl, by norm_num [defaultThresholds], by decide⟩

/-- The negative-revenue detail wording never collides with the
missing-data wording, whatever the rendered figure. -/
theorem negDetail_ne_missing (s : String) :
    ("Negative revenue ($" ++ s ++ ") - data anomaly requires investigation" : String)
      ≠ "No revenue data available" := by
  intro h
  have hl := congrArg String.length h
  rw [String.length_append, String.length_append] at hl
  have e1 : ("Negative revenue ($" : String).length = 19 := by decide
  have e2 : (") - data anomaly requires investigation" : String).length = 39 := by decide
  have e3 : ("No revenue data available" : String).length = 25 := by decide
  rw [e1, e2, e3] at hl
  omega

/-- The negative-revenue detail wording never collides with the
zero-revenue wording, whatever the rendered figure. -/
theorem negDetail_ne_zero (s : String) :
    ("Negative revenue ($" ++ s ++ ") - data anomaly requires investigation" : String)
      ≠ "Zero revenue reported" := by
  intro h
  have hl := congrArg String.length h
  rw [String.length_append, String.length_append] at hl
  have e1 : ("Negative revenue ($" : String).length = 19 := by decide
  have e2 : (") - data anomaly requires investigation" : String).length = 39 := by decide
  have e3 : ("Zero revenue reported" : String).length = 21 := by decide
  rw [e1, e2, e3] at hl
  omega

/-- C3 claim statement holds: under the validated revenue-boundary
ordering, the revenue-range check fails with the missing-data detail on
null revenue, fails with a distinct negative detail below zero, fails with
the distinct zero detail at exactly zero, fails below revenueFailMin,
reviews in [revenueFailMin, revenuePassMin), passes on the closed interval
[revenuePassMin, revenuePassMax], reviews in (revenuePassMax,
revenueReviewMax], and fails above revenueReviewMax. -/
theorem claim_C3 (p : NonprofitProfile) (t : VettingThresholds)
    (h1 : t.revenueFailMin ≤ t.revenuePassMin)
    (h2 : t.revenuePassMin ≤ t.revenuePassMax)
    (h3 : t.revenuePassMax ≤ t.revenueReviewMax) :
    (p.latest_990.bind (fun s => s.total_revenue) = none →
      (checkRevenueRange p t).result = CheckResult.FAIL ∧
        (checkRevenueRange p t).detail = "No revenue data available")
  ∧ (∀ r, p.latest_990.bind (fun s => s.total_revenue) = some r →
      ((r < 0 →
          (checkRevenueRange p t).result = CheckResult.FAIL ∧
          (checkRevenueRange p t).detail =
            "Negative revenue ($" ++ formatNumber r ++ ") - data anomaly requires investigation" ∧
          (checkRevenueRange p t).detail ≠ "No revenue data available" ∧
          (checkRevenueRange p t).detail ≠ "Zero revenue reported")
        ∧ (r = 0 →
            (checkRevenueRange p t).result = CheckResult.FAIL ∧
            (checkRevenueRange p t).detail = "Zero revenue reported" ∧
            (checkRevenueRange p t).detail ≠ "No revenue data available")
        ∧ (0 < r → r < t.revenueFailMin →
            (checkRevenueRange p t).result = CheckResult.FAIL)
        ∧ (0 < r → t.revenueFailMin ≤ r → r < t.revenuePassMin →
            (checkRevenueRange p t).result = CheckResult.REVIEW)
        ∧ (0 < r → t.revenuePassMin ≤ r → r ≤ t.revenuePassMax →
            (checkRevenueRange p t).result = CheckResult.PASS)
        ∧ (0 < r → t.revenuePassMax < r → r ≤ t.revenueReviewMax →
            (checkRevenueRange p t).result = CheckResult.REVIEW)
        ∧ (0 < r → t.revenueReviewMax < r →
            (checkRevenueRange p t).result = CheckResult.FAIL))) := by
  constructor
  · intro hrev
    refine ⟨?_, ?_⟩ <;> simp [checkRevenueRange, hrev]
  · intro r hrev
    refine ⟨?_, ?_, ?_, ?_, ?_, ?_, ?_⟩
    · intro hneg
      have hres : (checkRevenueRange p t).result = CheckResult.FAIL := by
        simp [checkRevenueRange, hrev, if_pos hneg]
      have hdet : (checkRevenueRange p t).detail =
          "Negative revenue ($" ++ formatNumber r ++ ") - data anomaly requires investigation" := by
        simp [checkRevenueRange, hrev, if_pos hneg]
      refine ⟨hres, hdet, ?_, ?_⟩
      · rw [hdet]
        exact negDetail_ne_missing _
      · rw [hdet]
        exact negDetail_ne_zero _
    · intro hzero
      subst hzero
      have hres : (checkRevenueRange p t).result = CheckResult.FAIL := by
        simp [checkRevenueRange, hrev]
      have hdet : (checkRevenueRange p t).detail = "Zero revenue reported" := by
        simp [checkRevenueRange, hrev]
      refine ⟨hres, hdet, ?_⟩
      rw [hdet]
      decide
    · intro hpos hlt
      simp only [checkRevenueRange, hrev]
      rw [if_neg (by linarith), if_neg (by linarith), if_pos hlt]
    · intro hpos hge hlt
      simp only [checkRevenueRange, hrev]
      rw [if_neg (by linarith), if_neg (by linarith), if_neg (by linarith), if_pos hlt]
    · intro hpos hge hle
      simp only [checkRevenueRange, hrev]
      rw [if_neg (by linarith), if_neg (by linarith), if_neg (by linarith),
        if_neg (by linarith), if_pos hle]
    · intro hpos hgt hle
      simp only [checkRevenueRange, hrev]
      rw [if_neg (by linarith), if_neg (by linarith), if_neg (by linarith),
        if_neg (by linarith), if_neg (by linarith), if_pos hle]
    · intro hpos hgt
      simp only [checkRevenueRange, hrev]
      rw [if_neg (by linarith), if_neg (by linarith), if_neg (by linarith),
        if_neg (by linarith), if_neg (by linarith), if_neg (by linarith)]

/-- Witness for C3: the default thresholds satisfy the ordering chain and
the sample revenue of 500000 dollars lands in the PASS band. -/
theorem claim_C3_witness :
    (checkRevenueRange sampleProfile defaultThresholds).result = CheckResult.PASS :=
  (((claim_C3 sampleProfile defaultThresholds (by norm_num [defaultThresholds])
    (by norm_num [defaultThresholds]) (by norm_num [defaultThresholds])).2
      500000 rfl).2.2.2.2.1) (by norm_num) (by norm_num [defaultThresholds])
    (by norm_num [defaultThresholds])

/-- A list is a prefix of itself extended on the right. -/
theorem isPrefixCL_append_self : ∀ a b : List Char, isPrefixCL a (a ++ b) = true := by
  intro a
  induction a with
  | nil => intro b; rfl
  | cons c cs ih => intro b; simp [isPrefixCL, ih]

/-- A prefix is in particular an infix. -/
theorem isInfixCL_of_isPrefixCL {n h : List Char} (hp : isPrefixCL n h = true) :
    isInfixCL n h = true := by
  cases h with
  | nil => simpa [isInfixCL] using hp
  | cons c cs => simp [isInfixCL, hp]

/-- Infixes survive extending the haystack on the left. -/
theorem isInfixCL_append_left : ∀ (pre n s : List Char),
    isInfixCL n s = true → isInfixCL n (pre ++ s) = true := by
  intro pre
  induction pre with
  | nil => intro n s h; simpa using h
  | cons c cs ih => intro n s h; simp [isInfixCL, ih n s h]

/-- A list occurs as an infix of any list embedding it in the middle. -/
theorem isInfixCL_append_middle (pre mid post : List Char) :
    isInfixCL mid (pre ++ (mid ++ post)) = true :=
  isInfixCL_append_left pre mid (mid ++ post)
    (isInfixCL_of_isPrefixCL (isPrefixCL_append_self mid post))

/-- A rendered flag line contains its own message as a substring. -/
theorem jsIncludes_flag_line (msg sev : String) :
    jsIncludes ("- " ++ msg ++ " (" ++ sev ++ ")") msg = true := by
  unfold jsIncludes
  have hd : (("- " ++ msg ++ " (" ++ sev ++ ")").data)
      = "- ".data ++ (msg.data ++ (" (".data ++ (sev.data ++ ")".data))) := by
    simp [String.data_append]
  rw [hd]
  exact isInfixCL_append_middle _ _ _

/-- The check loop of generateSummary accumulates exactly the spec-side
check lines. -/
theorem checkFold : ∀ (checks : List Tier1Check) (acc : List String),
    checks.foldl checkFactorStep acc = acc ++ specCheckFactors checks := by
  intro checks
  induction checks with
  | nil => intro acc; simp [specCheckFactors]
  | cons c cs ih =>
    intro acc
    rcases hm : CHECK_MESSAGES c.name with _ | msgs
    · simp only [List.foldl_cons, checkFactorStep, hm]
      rw [ih]
      simp [specCheckFactors, List.filterMap_cons, hm]
    · simp only [List.foldl_cons, checkFactorStep, hm]
      rw [ih]
      simp [specCheckFactors, List.filterMap_cons, hm]

/-- The flag loop of generateSummary accumulates exactly the spec-side
deduplicated flag lines. -/
theorem flagFold : ∀ (flags : List RedFlag) (acc : List String),
    flags.foldl flagFactorStep acc = acc ++ specFlagFactors acc flags := by
  intro flags
  induction flags with
  | nil => intro acc; simp [specFlagFactors]
  | cons f rest ih =>
    intro acc
    by_cases hc : acc.any
        (fun f2 => jsIncludes f2 ((RED_FLAG_FACTORS f.type).getD f.detail)) = true
    · simp only [List.foldl_cons, flagFactorStep, if_pos hc]
      rw [ih]
      simp only [specFlagFactors, if_pos hc]
    · simp only [List.foldl_cons, flagFactorStep, if_neg hc]
      rw [ih]
      simp only [specFlagFactors, if_neg hc]
      simp

/-- Processing the same flag twice in a row adds its line at most once:
the second occurrence is always skipped. -/
theorem specFlagFactors_dup : ∀ (pre : List RedFlag) (acc : List String)
    (flag : RedFlag) (post : List RedFlag),
    specFlagFactors acc (pre ++ flag :: flag :: post)
      = specFlagFactors acc (pre ++ flag :: post) := by
  intro pre
  induction pre with
  | nil =>
    intro acc flag post
    simp only [List.nil_append, specFlagFactors]
    by_cases hc : acc.any
        (fun f2 => jsIncludes f2 ((RED_FLAG_FACTORS flag.type).getD flag.detail)) = true
    · rw [if_pos hc]
    · rw [if_neg hc]
      have hin : (acc ++ ["- " ++ (RED_FLAG_FACTORS flag.type).getD flag.detail
          ++ " (" ++ severityStr flag.severity ++ ")"]).any
          (fun f2 => jsIncludes f2 ((RED_FLAG_FACTORS flag.type).getD flag.detail)) = true := by
        rw [List.any_append]
        have : (["- " ++ (RED_FLAG_FACTORS flag.type).getD flag.detail
            ++ " (" ++ severityStr flag.severity ++ ")"]).any
            (fun f2 => jsIncludes f2 ((RED_FLAG_FACTORS flag.type).getD flag.detail)) = true := by
          simp only [List.any_cons, List.any_nil, Bool.or_false]
          exact jsIncludes_flag_line _ _
        rw [this]
        simp
      simp only [specFlagFactors, if_pos hin, if_neg hc]
  | cons g pre ih =>
    intro acc flag post
    simp only [List.cons_append, specFlagFactors]
    by_cases hg : acc.any
        (fun f2 => jsIncludes f2 ((RED_FLAG_FACTORS g.type).getD g.detail)) = true
    · rw [if_pos hg, if_pos hg]
      exact ih acc flag post
    · rw [if_neg hg, if_neg hg]
      simp only [List.append_eq]
      rw [ih _ flag post]

/-- C8 as amended: the key factors are the check-derived lines followed by
one dash-prefixed line per red flag (table text with fallback to the
flag's own detail, severity appended), where a flag's line is omitted
whenever its text already occurs as a substring of any earlier accumulated
line, the check lines and the earlier flag lines alike; in particular a
repeated identical flag produces its line only once. -/
theorem claim_C8 (name : String) (score : ℚ) (recommendation : Recommendation)
    (checks : List Tier1Check) (redFlags : List RedFlag) (yearsOperating : Option ℚ) :
    ((generateSummary name score recommendation checks redFlags yearsOperating).key_factors
      = specKeyFactors checks redFlags)
  ∧ (∀ (acc : List String) (pre post : List RedFlag) (flag : RedFlag),
      specFlagFactors acc (pre ++ flag :: flag :: post)
        = specFlagFactors acc (pre ++ flag :: post)) := by
  constructor
  · simp only [generateSummary]
    rw [checkFold, List.nil_append, flagFold]
    rfl
  · intro acc pre post flag
    exact specFlagFactors_dup pre acc flag post

/-- Counterexample to C8 as stated: two identical flags produce a single
key-factor line, not two, because the dedup test also sees the line the
first flag just added. -/
theorem claim_C8_cex :
    (generateSummary "Org" 0 Recommendation.REJECT []
      [{ severity := RedFlagSeverity.MEDIUM, type := "too_new", detail := "dup" },
       { severity := RedFlagSeverity.MEDIUM, type := "too_new", detail := "dup" }]
      none).key_factors.length = 1 := by
  decide

end NonprofitVetting
